import Mathlib

/-!
# Verification of the wgpu-mc chunk meshing and model resolution core

This file gives a shallow embedding, in Lean 4, of the core data model and
operations of the `wgpu-mc` repository:

* `src/rust/wgpu-mc/src/mc/block.rs` — `BlockstateKey` packing, model
  resolution (`resolve_model`, `recurse_model_parents`) and mesh baking
  (`ModelMesh::bake`);
* `src/rust/wgpu-mc/src/mc/chunk.rs` — the chunk mesher (`bake_layer`),
  neighbour-opacity culling (`is_block_not_fully_opaque`) and the chunk GPU
  buffer allocator path (`Chunk::bake_chunk`);
* `src/rust/wgpu-mc/src/lib.rs` — `WmRenderer::update_surface_size` and
  `WmRenderer::submit_chunk_updates`.

Machine integers (`u16`, `u32`, `usize`) are embedded as `Nat` with explicit
`% 2 ^ w` where a Rust `as` cast can truncate.  Rust floats only ever appear
here as exact small rationals (`ℚ`) — every position produced by the mesh
baker is of the form `n / 16` with `0 ≤ n ≤ 16`, which `f32` represents
exactly.  Fallible Rust code is embedded in `Option`/`Except`: a Rust panic
(`unwrap`, `expect`, a failed `assert!`, an out-of-bounds index) is `none`,
while a typed `Result::Err` is `Except.error`.

External collaborators whose sources are not part of this repository (the
`minecraft_assets` model resolver, `serde_json`, the `range_alloc` range
allocator, the texture atlas internals) are modelled explicitly; each such
definition carries a doc comment saying what it models.
-/

set_option maxRecDepth 100000
set_option maxHeartbeats 4000000

namespace WgpuMc

/-! ## `BlockstateKey` (block.rs lines 19–46) -/

/-- `BlockstateKey { block: u16, augment: u16 }` from block.rs.  The two
fields are `u16` in Rust; they are embedded as `Nat` together with the
`u16` range invariants `block < 2 ^ 16`, `augment < 2 ^ 16` stated as
hypotheses where needed. -/
structure BlockstateKey where
  block : Nat
  augment : Nat
deriving DecidableEq, Repr

/-- `BlockstateKey::pack`: `((self.block as u32) << 16) | (self.augment as u32)`.
Since `block < 2 ^ 16`, the shift cannot overflow the `u32`, so no `% 2 ^ 32`
is required. -/
def BlockstateKey.pack (self : BlockstateKey) : Nat :=
  (self.block <<< 16) ||| self.augment

/-- `impl From<u32> for BlockstateKey`:
`Self::from(((int >> 16) as u16, (int & 0xffff) as u16))`.
The `as u16` casts truncate modulo `2 ^ 16`. -/
def BlockstateKey.fromU32 (int : Nat) : BlockstateKey :=
  { block := (int >>> 16) % 2 ^ 16, augment := (int &&& 0xffff) % 2 ^ 16 }

/-! ## Chunk geometry constants (chunk.rs lines 30–38) -/

def CHUNK_WIDTH : Nat := 16
def CHUNK_AREA : Nat := CHUNK_WIDTH * CHUNK_WIDTH
def CHUNK_HEIGHT : Nat := 384
def CHUNK_VOLUME : Nat := CHUNK_AREA * CHUNK_HEIGHT
def CHUNK_SECTION_HEIGHT : Nat := 16
def CHUNK_SECTIONS_PER : Nat := CHUNK_HEIGHT / CHUNK_SECTION_HEIGHT
def SECTION_VOLUME : Nat := CHUNK_AREA * CHUNK_SECTION_HEIGHT
def CHUNK_ALLOCATOR_SIZE : Nat := 1000 * 1000 * 1000

/-! ## Block states and meshes as the chunk mesher sees them

`chunk.rs` consumes `ModelMesh` through `mesh.models[0].0` (a
`CubeOrComplexMesh`) and `mesh.models[0].1` (a `bool` that is true when the
block does not fully obscure its six faces).  `CubeOrComplexMesh` and the
`models` field are referenced by chunk.rs but their declarations are not in
the sources; they are reconstructed here exactly as chunk.rs uses them:
`models : Vec<(CubeOrComplexMesh, bool)>`, where a face of a
`BlockModelFaces` is an optional collection of vertices (the `Complex` arm
flattens `[Option<..>; 6]` twice).  The vertex type is kept abstract (`V`)
because the mesher never inspects vertices — it only passes them to the
layer's `mapper`. -/

/-- `ChunkBlockState` from block.rs lines 49–53. -/
inductive ChunkBlockState where
  | Air : ChunkBlockState
  | State (key : BlockstateKey) : ChunkBlockState
deriving DecidableEq, Repr

/-- `ChunkBlockState::is_air` (block.rs lines 55–59). -/
def ChunkBlockState.is_air : ChunkBlockState → Bool
  | .Air => true
  | .State _ => false

/-- The per-direction faces of one model element, as used by the `Complex`
arm of `bake_layer` (chunk.rs lines 277–295): each direction holds an
optional collection of vertices. -/
structure BlockModelFacesC (V : Type) where
  north : Option (List V)
  east : Option (List V)
  south : Option (List V)
  west : Option (List V)
  up : Option (List V)
  down : Option (List V)
deriving DecidableEq, Repr

/-- `CubeOrComplexMesh`, as matched on in chunk.rs line 241. -/
inductive CubeOrComplexMesh (V : Type) where
  | Cube (model : BlockModelFacesC V) : CubeOrComplexMesh V
  | Complex (model : List (BlockModelFacesC V)) : CubeOrComplexMesh V
deriving DecidableEq, Repr

/-- `ModelMesh` as consumed by chunk.rs: `models[i].0` is the geometry,
`models[i].1` is true when the block does not fully obscure all six faces
(i.e. the block is "not fully opaque"). -/
structure ModelMeshC (V : Type) where
  models : List (CubeOrComplexMesh V × Bool)
deriving DecidableEq, Repr

/-- `BlockManager.blocks` is an `IndexMap`; `get_index(i)` returns the i-th
entry, and `Block::get_model(augment)` returns that block's mesh for the
given augment.  `Block` itself is outside the given sources, so a block is
embedded as its `get_model` function. -/
structure BlockManager (V : Type) where
  blocks : List (Nat → ModelMeshC V)

/-- The `BlockStateProvider` trait (chunk.rs lines 80–84). -/
structure BlockStateProviderE where
  get_state : Int → Int → Int → ChunkBlockState
  is_section_empty : Nat → Bool

/-- `Chunk.pos : [i32; 2]` (chunk.rs lines 96–101); the `baked_layers` map
is threaded explicitly through `bake_chunk`. -/
structure Chunk where
  pos : Int × Int
deriving DecidableEq, Repr

/-- `get_block` (chunk.rs lines 167–180): `Air` yields `None`; otherwise
`blocks.get_index(key.block)?` (the `?` propagates a missing index as
`None`) followed by `get_model(key.augment)`. -/
def get_block {V : Type} (block_manager : BlockManager V) (state : ChunkBlockState) :
    Option (ModelMeshC V) :=
  match state with
  | .Air => none
  | .State key => (block_manager.blocks.get? key.block).map (fun b => b key.augment)

/-- `is_block_not_fully_opaque` (chunk.rs lines 150–165): returns
`mesh.models[0].1` when the block resolves to a mesh (the index panics —
`none` — when `models` is empty), and `true` when it does not (air or an
unknown block). -/
def is_block_not_fully_opaque {V : Type} (block_manager : BlockManager V)
    (state_provider : BlockStateProviderE) (x y z : Int) : Option Bool :=
  match get_block block_manager (state_provider.get_state x y z) with
  | some mesh => (mesh.models.get? 0).map (fun m => m.2)
  | none => some true

/-- The vertices contributed by one voxel in `bake_layer` (the
`match &mesh.models[0].0` at chunk.rs lines 241–296).

* the `models[0]` index panics (`none`) when `models` is empty;
* `Cube`: the six `render_*` booleans are computed eagerly, in the source's
  order (east, west, up, down, south, north) — each computation can panic —
  but all six `if render_* { }` bodies are empty, so no vertices are pushed;
* `Complex`: for every element, the six faces are flattened in the
  order north, east, south, west, up, down (absent faces contribute
  nothing) and every vertex is passed through `mapper` with the
  chunk-local coordinates. -/
def bakeVoxel {V T : Type} (block_manager : BlockManager V)
    (state_provider : BlockStateProviderE) (mapper : V → Int → Int → Int → T)
    (mesh : ModelMeshC V) (x y z absolute_x absolute_z : Int) : Option (List T) :=
  match mesh.models.get? 0 with
  | none => none
  | some (CubeOrComplexMesh.Cube _model, _) => do
    let _render_east ← is_block_not_fully_opaque block_manager state_provider
      (absolute_x + 1) y absolute_z
    let _render_west ← is_block_not_fully_opaque block_manager state_provider
      (absolute_x - 1) y absolute_z
    let _render_up ← is_block_not_fully_opaque block_manager state_provider
      absolute_x (y + 1) absolute_z
    let _render_down ← is_block_not_fully_opaque block_manager state_provider
      absolute_x (y - 1) absolute_z
    let _render_south ← is_block_not_fully_opaque block_manager state_provider
      absolute_x y (absolute_z + 1)
    let _render_north ← is_block_not_fully_opaque block_manager state_provider
      absolute_x y (absolute_z - 1)
    some []
  | some (CubeOrComplexMesh.Complex model, _) =>
    some ((model.map (fun faces =>
      ([faces.north, faces.east, faces.south, faces.west, faces.up,
        faces.down].filterMap id).flatten)).flatten.map (fun v => mapper v x y z))

/-- The `loop { ... }` of `bake_layer` (chunk.rs lines 200–297), with the
voxel body factored out as `bakeVoxel`.  The loop index `block_index` grows
by at least one per iteration, so `CHUNK_VOLUME + 1` units of fuel always
suffice; fuel exhaustion (unreachable from `bake_layer`) returns the
accumulator.  The `y` coordinate is `block_index / CHUNK_AREA < 384 < 2^15`,
so the `as i16` cast never truncates. -/
def bakeLoop {V T : Type} (block_manager : BlockManager V) (chunk : Chunk)
    (mapper : V → Int → Int → Int → T) (filter : BlockstateKey → Bool)
    (state_provider : BlockStateProviderE) :
    Nat → Nat → List T → Option (List T)
  | 0, _, vertices => some vertices
  | fuel + 1, block_index, vertices =>
    if CHUNK_VOLUME ≤ block_index then
      some vertices
    else
      let x : Int := (block_index % CHUNK_WIDTH : Nat)
      let y : Int := (block_index / CHUNK_AREA : Nat)
      let z : Int := ((block_index % CHUNK_AREA) / CHUNK_WIDTH : Nat)
      if (x = 0 ∧ z = 0 ∧ (block_index / CHUNK_AREA) % CHUNK_SECTION_HEIGHT = 0) ∧
          state_provider.is_section_empty
            ((block_index / CHUNK_AREA) / CHUNK_SECTION_HEIGHT) then
        bakeLoop block_manager chunk mapper filter state_provider fuel
          (block_index + CHUNK_SECTION_HEIGHT * CHUNK_AREA) vertices
      else
        let absolute_x : Int := chunk.pos.1 * 16 + x
        let absolute_z : Int := chunk.pos.2 * 16 + z
        let block_state := state_provider.get_state absolute_x y absolute_z
        if block_state.is_air then
          bakeLoop block_manager chunk mapper filter state_provider fuel
            (block_index + 1) vertices
        else
          match block_state with
          | .Air => none -- `unreachable!()`
          | .State state_key =>
            if !filter state_key then
              bakeLoop block_manager chunk mapper filter state_provider fuel
                (block_index + 1) vertices
            else
              match get_block block_manager block_state with
              | none => none -- `.unwrap()`
              | some mesh =>
                match bakeVoxel block_manager state_provider mapper mesh
                    x y z absolute_x absolute_z with
                | none => none
                | some new =>
                  bakeLoop block_manager chunk mapper filter state_provider fuel
                    (block_index + 1) (vertices ++ new)

/-- `bake_layer` (chunk.rs lines 182–300).  The function returns the
`vertices` vector (the `indices` vector is never written to and is not part
of the returned value).  `none` models a panic inside the loop. -/
def bake_layer {V T : Type} (block_manager : BlockManager V) (chunk : Chunk)
    (mapper : V → Int → Int → Int → T) (filter : BlockstateKey → Bool)
    (state_provider : BlockStateProviderE) : Option (List T) :=
  bakeLoop block_manager chunk mapper filter state_provider (CHUNK_VOLUME + 1) 0 []

/-! ## Instrumented mesher

To reason about which positions `bake_layer` queries through
`BlockStateProvider::get_state`, the loop is repeated below with two extra
write-only accumulators recording the arguments of every `get_state` call:
`main_calls` for the per-voxel call in the loop body (chunk.rs line 222) and
`neighbor_calls` for the six neighbour-opacity calls made through
`is_block_not_fully_opaque` in the `Cube` arm (chunk.rs lines 247–252).
Erasing the two accumulators yields `bakeLoop`/`bakeVoxel` verbatim;
`bakeLoopT_fst` below proves that the instrumentation does not change the
computed vertices. -/

/-- The observable trace of one `bake_layer` run: the vertices it returns
plus the arguments of every `get_state` call it makes. -/
structure BakeTrace (T : Type) where
  vertices : List T
  main_calls : List (Int × Int × Int)
  neighbor_calls : List (Int × Int × Int)
deriving DecidableEq, Repr

/-- `bakeVoxel`, instrumented: additionally returns the positions passed to
`get_state` by the six neighbour-opacity checks of the `Cube` arm, in the
source's evaluation order (east, west, up, down, south, north). -/
def bakeVoxelT {V T : Type} (block_manager : BlockManager V)
    (state_provider : BlockStateProviderE) (mapper : V → Int → Int → Int → T)
    (mesh : ModelMeshC V) (x y z absolute_x absolute_z : Int) :
    Option (List T × List (Int × Int × Int)) :=
  match mesh.models.get? 0 with
  | none => none
  | some (CubeOrComplexMesh.Cube _model, _) => do
    let _render_east ← is_block_not_fully_opaque block_manager state_provider
      (absolute_x + 1) y absolute_z
    let _render_west ← is_block_not_fully_opaque block_manager state_provider
      (absolute_x - 1) y absolute_z
    let _render_up ← is_block_not_fully_opaque block_manager state_provider
      absolute_x (y + 1) absolute_z
    let _render_down ← is_block_not_fully_opaque block_manager state_provider
      absolute_x (y - 1) absolute_z
    let _render_south ← is_block_not_fully_opaque block_manager state_provider
      absolute_x y (absolute_z + 1)
    let _render_north ← is_block_not_fully_opaque block_manager state_provider
      absolute_x y (absolute_z - 1)
    some ([],
      [(absolute_x + 1, y, absolute_z), (absolute_x - 1, y, absolute_z),
       (absolute_x, y + 1, absolute_z), (absolute_x, y - 1, absolute_z),
       (absolute_x, y, absolute_z + 1), (absolute_x, y, absolute_z - 1)])
  | some (CubeOrComplexMesh.Complex model, _) =>
    some ((model.map (fun faces =>
      ([faces.north, faces.east, faces.south, faces.west, faces.up,
        faces.down].filterMap id).flatten)).flatten.map (fun v => mapper v x y z), [])

/-- `bakeLoop`, instrumented with the `get_state` call trace. -/
def bakeLoopT {V T : Type} (block_manager : BlockManager V) (chunk : Chunk)
    (mapper : V → Int → Int → Int → T) (filter : BlockstateKey → Bool)
    (state_provider : BlockStateProviderE) :
    Nat → Nat → BakeTrace T → Option (BakeTrace T)
  | 0, _, acc => some acc
  | fuel + 1, block_index, acc =>
    if CHUNK_VOLUME ≤ block_index then
      some acc
    else
      let x : Int := (block_index % CHUNK_WIDTH : Nat)
      let y : Int := (block_index / CHUNK_AREA : Nat)
      let z : Int := ((block_index % CHUNK_AREA) / CHUNK_WIDTH : Nat)
      if (x = 0 ∧ z = 0 ∧ (block_index / CHUNK_AREA) % CHUNK_SECTION_HEIGHT = 0) ∧
          state_provider.is_section_empty
            ((block_index / CHUNK_AREA) / CHUNK_SECTION_HEIGHT) then
        bakeLoopT block_manager chunk mapper filter state_provider fuel
          (block_index + CHUNK_SECTION_HEIGHT * CHUNK_AREA) acc
      else
        let absolute_x : Int := chunk.pos.1 * 16 + x
        let absolute_z : Int := chunk.pos.2 * 16 + z
        let acc := { acc with main_calls := acc.main_calls ++ [(absolute_x, y, absolute_z)] }
        let block_state := state_provider.get_state absolute_x y absolute_z
        if block_state.is_air then
          bakeLoopT block_manager chunk mapper filter state_provider fuel
            (block_index + 1) acc
        else
          match block_state with
          | .Air => none -- `unreachable!()`
          | .State state_key =>
            if !filter state_key then
              bakeLoopT block_manager chunk mapper filter state_provider fuel
                (block_index + 1) acc
            else
              match get_block block_manager block_state with
              | none => none -- `.unwrap()`
              | some mesh =>
                match bakeVoxelT block_manager state_provider mapper mesh
                    x y z absolute_x absolute_z with
                | none => none
                | some (new, neigh) =>
                  bakeLoopT block_manager chunk mapper filter state_provider fuel
                    (block_index + 1)
                    { vertices := acc.vertices ++ new
                      main_calls := acc.main_calls
                      neighbor_calls := acc.neighbor_calls ++ neigh }

/-- `bake_layer`, instrumented with the `get_state` call trace. -/
def bake_layer_traced {V T : Type} (block_manager : BlockManager V) (chunk : Chunk)
    (mapper : V → Int → Int → Int → T) (filter : BlockstateKey → Bool)
    (state_provider : BlockStateProviderE) : Option (BakeTrace T) :=
  bakeLoopT block_manager chunk mapper filter state_provider (CHUNK_VOLUME + 1) 0
    { vertices := [], main_calls := [], neighbor_calls := [] }

/-- The instrumentation changes nothing per voxel: the vertices computed by
`bakeVoxelT` are those of `bakeVoxel`. -/
theorem bakeVoxelT_fst {V T : Type} (block_manager : BlockManager V)
    (state_provider : BlockStateProviderE) (mapper : V → Int → Int → Int → T)
    (mesh : ModelMeshC V) (x y z absolute_x absolute_z : Int) :
    (bakeVoxelT block_manager state_provider mapper mesh x y z absolute_x
      absolute_z).map Prod.fst
      = bakeVoxel block_manager state_provider mapper mesh x y z absolute_x
          absolute_z := by
  unfold bakeVoxelT bakeVoxel
  cases mesh.models.get? 0 with
  | none => rfl
  | some m =>
    obtain ⟨com, _flag⟩ := m
    cases com with
    | Complex model => rfl
    | Cube model =>
      cases is_block_not_fully_opaque block_manager state_provider
          (absolute_x + 1) y absolute_z <;>
        cases is_block_not_fully_opaque block_manager state_provider
          (absolute_x - 1) y absolute_z <;>
        cases is_block_not_fully_opaque block_manager state_provider
          absolute_x (y + 1) absolute_z <;>
        cases is_block_not_fully_opaque block_manager state_provider
          absolute_x (y - 1) absolute_z <;>
        cases is_block_not_fully_opaque block_manager state_provider
          absolute_x y (absolute_z + 1) <;>
        cases is_block_not_fully_opaque block_manager state_provider
          absolute_x y (absolute_z - 1) <;>
        rfl

/-- The instrumentation changes nothing: projecting the trace to its
vertices recovers the uninstrumented loop. -/
theorem bakeLoopT_fst {V T : Type} (block_manager : BlockManager V) (chunk : Chunk)
    (mapper : V → Int → Int → Int → T) (filter : BlockstateKey → Bool)
    (state_provider : BlockStateProviderE) :
    ∀ (fuel block_index : Nat) (acc : BakeTrace T),
      (bakeLoopT block_manager chunk mapper filter state_provider fuel block_index
        acc).map BakeTrace.vertices
        = bakeLoop block_manager chunk mapper filter state_provider fuel block_index
            acc.vertices := by
  intro fuel
  induction fuel with
  | zero => intro bi acc; rfl
  | succ fuel ih =>
    intro bi acc
    rw [bakeLoopT, bakeLoop]
    by_cases h1 : CHUNK_VOLUME ≤ bi
    · simp only [if_pos h1]; rfl
    · simp only [if_neg h1]
      by_cases h2 : (((bi % CHUNK_WIDTH : Nat) : Int) = 0 ∧
            (((bi % CHUNK_AREA) / CHUNK_WIDTH : Nat) : Int) = 0 ∧
            (bi / CHUNK_AREA) % CHUNK_SECTION_HEIGHT = 0) ∧
          state_provider.is_section_empty ((bi / CHUNK_AREA) / CHUNK_SECTION_HEIGHT) = true
      · simp only [if_pos h2]
        exact ih _ _
      · simp only [if_neg h2]
        cases hst : state_provider.get_state (chunk.pos.1 * 16 + (bi % CHUNK_WIDTH : Nat))
            (bi / CHUNK_AREA : Nat)
            (chunk.pos.2 * 16 + ((bi % CHUNK_AREA) / CHUNK_WIDTH : Nat)) with
        | Air => simpa using ih _ _
        | State key =>
          simp only [ChunkBlockState.is_air]
          by_cases hf : filter key = true
          · simp only [hf, Bool.not_true, Bool.false_eq_true, if_false]
            cases hgb : get_block block_manager (ChunkBlockState.State key) with
            | none => rfl
            | some mesh =>
              dsimp only
              have hvx := bakeVoxelT_fst block_manager state_provider mapper mesh
                ((bi % CHUNK_WIDTH : Nat) : Int) ((bi / CHUNK_AREA : Nat) : Int)
                (((bi % CHUNK_AREA) / CHUNK_WIDTH : Nat) : Int)
                (chunk.pos.1 * 16 + ((bi % CHUNK_WIDTH : Nat) : Int))
                (chunk.pos.2 * 16 + (((bi % CHUNK_AREA) / CHUNK_WIDTH : Nat) : Int))
              cases hvt : bakeVoxelT block_manager state_provider mapper mesh
                  ((bi % CHUNK_WIDTH : Nat) : Int) ((bi / CHUNK_AREA : Nat) : Int)
                  (((bi % CHUNK_AREA) / CHUNK_WIDTH : Nat) : Int)
                  (chunk.pos.1 * 16 + ((bi % CHUNK_WIDTH : Nat) : Int))
                  (chunk.pos.2 * 16 + (((bi % CHUNK_AREA) / CHUNK_WIDTH : Nat) : Int)) with
              | none =>
                rw [hvt] at hvx
                rw [← hvx]
                rfl
              | some pair =>
                rw [hvt] at hvx
                rw [← hvx]
                exact ih _ _
          · simp only [hf]
            simpa using ih _ _

/-- Helper: if from some index on every voxel the loop can still visit reads
as `Air` from the provider, the loop from there only extends the
`main_calls` trace: vertices and neighbour calls are unchanged. -/
theorem bakeLoopT_tail_air {V T : Type} (block_manager : BlockManager V)
    (chunk : Chunk) (mapper : V → Int → Int → Int → T)
    (filter : BlockstateKey → Bool) (state_provider : BlockStateProviderE)
    (idx : Nat)
    (hair : ∀ bi : Nat, idx < bi → bi < CHUNK_VOLUME →
      state_provider.get_state (chunk.pos.1 * 16 + ((bi % CHUNK_WIDTH : Nat) : Int))
        ((bi / CHUNK_AREA : Nat) : Int)
        (chunk.pos.2 * 16 + (((bi % CHUNK_AREA) / CHUNK_WIDTH : Nat) : Int))
        = ChunkBlockState.Air) :
    ∀ (fuel block_index : Nat) (acc : BakeTrace T), idx < block_index →
      ∃ m', bakeLoopT block_manager chunk mapper filter state_provider fuel
        block_index acc
        = some { vertices := acc.vertices, main_calls := m',
                 neighbor_calls := acc.neighbor_calls } := by
  intro fuel
  induction fuel with
  | zero => intro bi acc _; exact ⟨acc.main_calls, rfl⟩
  | succ fuel ih =>
    intro bi acc hbi
    rw [bakeLoopT]
    by_cases h1 : CHUNK_VOLUME ≤ bi
    · exact ⟨acc.main_calls, by simp only [if_pos h1]⟩
    · simp only [if_neg h1]
      by_cases h2 : (((bi % CHUNK_WIDTH : Nat) : Int) = 0 ∧
            (((bi % CHUNK_AREA) / CHUNK_WIDTH : Nat) : Int) = 0 ∧
            (bi / CHUNK_AREA) % CHUNK_SECTION_HEIGHT = 0) ∧
          state_provider.is_section_empty
            ((bi / CHUNK_AREA) / CHUNK_SECTION_HEIGHT) = true
      · simp only [if_pos h2]
        exact ih _ _ (by omega)
      · simp only [if_neg h2]
        rw [hair bi hbi (by omega)]
        simp only [ChunkBlockState.is_air, if_pos]
        exact ih (bi + 1) _ (by omega)

/-- Helper: in a world that contains exactly one non-air voxel — at
chunk-local position `(lx, ly, lz)` of the chunk being baked — a full
`bake_layer` run returns exactly the vertices and neighbour-trace produced
by that one voxel's `bakeVoxelT`, provided the voxel's section is not
reported empty and its blockstate passes the layer filter. -/
theorem bakeLoopT_single_block {V T : Type} (block_manager : BlockManager V)
    (chunk : Chunk) (mapper : V → Int → Int → Int → T)
    (filter : BlockstateKey → Bool) (state_provider : BlockStateProviderE)
    (lx ly lz : Nat) (hlx : lx < 16) (hly : ly < 384) (hlz : lz < 16)
    (key : BlockstateKey) (mesh : ModelMeshC V) (vs : List T)
    (ns : List (Int × Int × Int))
    (hstate : ∀ x y z : Int,
      state_provider.get_state x y z =
        if x = chunk.pos.1 * 16 + (lx : Int) ∧ y = (ly : Int) ∧
            z = chunk.pos.2 * 16 + (lz : Int) then
          ChunkBlockState.State key
        else ChunkBlockState.Air)
    (hempty : state_provider.is_section_empty (ly / 16) = false)
    (hfilter : filter key = true)
    (hgb : get_block block_manager (ChunkBlockState.State key) = some mesh)
    (hvoxel : bakeVoxelT block_manager state_provider mapper mesh
      (lx : Int) (ly : Int) (lz : Int) (chunk.pos.1 * 16 + (lx : Int))
      (chunk.pos.2 * 16 + (lz : Int)) = some (vs, ns)) :
    ∃ m', bake_layer_traced block_manager chunk mapper filter state_provider
      = some { vertices := vs, main_calls := m', neighbor_calls := ns } := by
  have hair : ∀ bi : Nat, ly * 256 + lz * 16 + lx < bi → bi < CHUNK_VOLUME →
      state_provider.get_state
        (chunk.pos.1 * 16 + ((bi % CHUNK_WIDTH : Nat) : Int))
        ((bi / CHUNK_AREA : Nat) : Int)
        (chunk.pos.2 * 16 + (((bi % CHUNK_AREA) / CHUNK_WIDTH : Nat) : Int))
        = ChunkBlockState.Air := by
    intro bi hlt hvol
    rw [hstate]
    rw [if_neg]
    rintro ⟨hx, hy, hz⟩
    have hx' : bi % CHUNK_WIDTH = lx := by
      have := add_left_cancel hx
      exact_mod_cast this
    have hy' : bi / CHUNK_AREA = ly := by exact_mod_cast hy
    have hz' : (bi % CHUNK_AREA) / CHUNK_WIDTH = lz := by
      have := add_left_cancel hz
      exact_mod_cast this
    simp only [CHUNK_WIDTH, CHUNK_AREA] at hx' hy' hz'
    omega
  -- main induction: walk from any index at or below the block's index
  have main : ∀ (fuel bi : Nat) (acc : BakeTrace T),
      bi ≤ ly * 256 + lz * 16 + lx → CHUNK_VOLUME + 1 - bi ≤ fuel →
      ∃ m', bakeLoopT block_manager chunk mapper filter state_provider fuel bi acc
        = some { vertices := acc.vertices ++ vs, main_calls := m',
                 neighbor_calls := acc.neighbor_calls ++ ns } := by
    intro fuel
    induction fuel with
    | zero =>
      intro bi acc hle hfuel
      exfalso
      simp only [CHUNK_VOLUME, CHUNK_AREA, CHUNK_WIDTH, CHUNK_HEIGHT] at hfuel
      omega
    | succ fuel ih =>
      intro bi acc hle hfuel
      rw [bakeLoopT]
      have hvol : ¬ CHUNK_VOLUME ≤ bi := by
        simp only [CHUNK_VOLUME, CHUNK_AREA, CHUNK_WIDTH, CHUNK_HEIGHT]
        omega
      simp only [if_neg hvol]
      by_cases h2 : (((bi % CHUNK_WIDTH : Nat) : Int) = 0 ∧
            (((bi % CHUNK_AREA) / CHUNK_WIDTH : Nat) : Int) = 0 ∧
            (bi / CHUNK_AREA) % CHUNK_SECTION_HEIGHT = 0) ∧
          state_provider.is_section_empty
            ((bi / CHUNK_AREA) / CHUNK_SECTION_HEIGHT) = true
      · -- the current section is skipped: it cannot be the block's section
        simp only [if_pos h2]
        obtain ⟨⟨hx0, hz0, hy0⟩, hemp⟩ := h2
        have hx0' : bi % CHUNK_WIDTH = 0 := by exact_mod_cast hx0
        have hz0' : (bi % CHUNK_AREA) / CHUNK_WIDTH = 0 := by exact_mod_cast hz0
        have hsec : (bi / CHUNK_AREA) / CHUNK_SECTION_HEIGHT ≠ ly / 16 := by
          intro hcontra
          rw [hcontra, hempty] at hemp
          exact Bool.false_ne_true hemp
        apply ih
        · simp only [CHUNK_WIDTH, CHUNK_AREA, CHUNK_SECTION_HEIGHT] at hx0' hz0' hy0 hsec ⊢
          omega
        · simp only [CHUNK_WIDTH, CHUNK_AREA, CHUNK_SECTION_HEIGHT] at *
          omega
      · simp only [if_neg h2]
        by_cases hat : bi = ly * 256 + lz * 16 + lx
        · -- this is the block's voxel
          have hxe : bi % CHUNK_WIDTH = lx := by
            simp only [CHUNK_WIDTH]; omega
          have hye : bi / CHUNK_AREA = ly := by
            simp only [CHUNK_AREA, CHUNK_WIDTH]; omega
          have hze : (bi % CHUNK_AREA) / CHUNK_WIDTH = lz := by
            simp only [CHUNK_AREA, CHUNK_WIDTH]; omega
          rw [hxe, hye, hze, hstate]
          rw [if_pos (show chunk.pos.1 * 16 + (lx : Int) = chunk.pos.1 * 16 + (lx : Int) ∧
            ((ly : Int) = (ly : Int)) ∧
            chunk.pos.2 * 16 + (lz : Int) = chunk.pos.2 * 16 + (lz : Int) from
            ⟨rfl, rfl, rfl⟩)]
          simp only [ChunkBlockState.is_air, Bool.false_eq_true, if_false, hfilter,
            Bool.not_true, hgb, hvoxel]
          have htail := bakeLoopT_tail_air block_manager chunk mapper filter
            state_provider (ly * 256 + lz * 16 + lx) hair fuel (bi + 1)
            { vertices := acc.vertices ++ vs,
              main_calls := acc.main_calls ++
                [(chunk.pos.1 * 16 + (lx : Int), (ly : Int),
                  chunk.pos.2 * 16 + (lz : Int))],
              neighbor_calls := acc.neighbor_calls ++ ns }
            (by omega)
          obtain ⟨m', hm'⟩ := htail
          exact ⟨m', hm'⟩
        · -- a voxel before the block: it reads as Air
          have hne : ¬((chunk.pos.1 * 16 + ((bi % CHUNK_WIDTH : Nat) : Int)
                = chunk.pos.1 * 16 + (lx : Int)) ∧
              (((bi / CHUNK_AREA : Nat) : Int) = (ly : Int)) ∧
              (chunk.pos.2 * 16 + (((bi % CHUNK_AREA) / CHUNK_WIDTH : Nat) : Int)
                = chunk.pos.2 * 16 + (lz : Int))) := by
            rintro ⟨hx, hy, hz⟩
            have hx' : bi % CHUNK_WIDTH = lx := by
              have := add_left_cancel hx
              exact_mod_cast this
            have hy' : bi / CHUNK_AREA = ly := by exact_mod_cast hy
            have hz' : (bi % CHUNK_AREA) / CHUNK_WIDTH = lz := by
              have := add_left_cancel hz
              exact_mod_cast this
            simp only [CHUNK_WIDTH, CHUNK_AREA] at hx' hy' hz'
            omega
          rw [hstate, if_neg hne]
          simp only [ChunkBlockState.is_air, if_pos]
          exact ih (bi + 1) _ (by omega) (by omega)
  have hidx : ly * 256 + lz * 16 + lx < CHUNK_VOLUME := by
    simp only [CHUNK_VOLUME, CHUNK_AREA, CHUNK_WIDTH, CHUNK_HEIGHT]
    omega
  obtain ⟨m', hm'⟩ := main (CHUNK_VOLUME + 1) 0
    { vertices := [], main_calls := [], neighbor_calls := [] } (by omega) (by omega)
  exact ⟨m', by simpa [bake_layer_traced] using hm'⟩

/-- "Every blockstate in this world has a cube-shaped first model."  Under
this hypothesis every voxel the mesher processes takes the `Cube` arm of
`bake_layer`. -/
def allCubeWorld {V : Type} (block_manager : BlockManager V)
    (state_provider : BlockStateProviderE) : Prop :=
  ∀ x y z : Int,
    match state_provider.get_state x y z with
    | ChunkBlockState.Air => True
    | ChunkBlockState.State key => ∃ mesh faces b,
        get_block block_manager (ChunkBlockState.State key) = some mesh ∧
        mesh.models.get? 0 = some (CubeOrComplexMesh.Cube faces, b)

/-- Helper: in an all-cube world the neighbour-opacity check never panics. -/
theorem opaque_check_total {V : Type} (block_manager : BlockManager V)
    (state_provider : BlockStateProviderE)
    (hcube : allCubeWorld block_manager state_provider) (x y z : Int) :
    ∃ b, is_block_not_fully_opaque block_manager state_provider x y z = some b := by
  have h := hcube x y z
  unfold is_block_not_fully_opaque
  cases hst : state_provider.get_state x y z with
  | Air => exact ⟨true, by simp [get_block]⟩
  | State key =>
    rw [hst] at h
    obtain ⟨mesh, faces, b, hgb, hm0⟩ := h
    rw [hgb]
    exact ⟨b, by dsimp only; rw [hm0]; rfl⟩

/-- Helper: in an all-cube world the mesher's per-voxel emission is always
empty — the `Cube` arm of the source computes its six culling booleans and
then pushes no vertices. -/
theorem bakeLoopT_all_cube {V T : Type} (block_manager : BlockManager V)
    (chunk : Chunk) (mapper : V → Int → Int → Int → T)
    (filter : BlockstateKey → Bool) (state_provider : BlockStateProviderE)
    (hcube : allCubeWorld block_manager state_provider) :
    ∀ (fuel block_index : Nat) (acc : BakeTrace T),
      ∃ m' n', bakeLoopT block_manager chunk mapper filter state_provider fuel
        block_index acc
        = some { vertices := acc.vertices, main_calls := m', neighbor_calls := n' } := by
  intro fuel
  induction fuel with
  | zero => intro bi acc; exact ⟨acc.main_calls, acc.neighbor_calls, rfl⟩
  | succ fuel ih =>
    intro bi acc
    rw [bakeLoopT]
    by_cases h1 : CHUNK_VOLUME ≤ bi
    · exact ⟨acc.main_calls, acc.neighbor_calls, by simp only [if_pos h1]⟩
    · simp only [if_neg h1]
      by_cases h2 : (((bi % CHUNK_WIDTH : Nat) : Int) = 0 ∧
            (((bi % CHUNK_AREA) / CHUNK_WIDTH : Nat) : Int) = 0 ∧
            (bi / CHUNK_AREA) % CHUNK_SECTION_HEIGHT = 0) ∧
          state_provider.is_section_empty
            ((bi / CHUNK_AREA) / CHUNK_SECTION_HEIGHT) = true
      · simp only [if_pos h2]
        exact ih _ _
      · simp only [if_neg h2]
        have h := hcube (chunk.pos.1 * 16 + ((bi % CHUNK_WIDTH : Nat) : Int))
          ((bi / CHUNK_AREA : Nat) : Int)
          (chunk.pos.2 * 16 + (((bi % CHUNK_AREA) / CHUNK_WIDTH : Nat) : Int))
        cases hst : state_provider.get_state
            (chunk.pos.1 * 16 + ((bi % CHUNK_WIDTH : Nat) : Int))
            ((bi / CHUNK_AREA : Nat) : Int)
            (chunk.pos.2 * 16 + (((bi % CHUNK_AREA) / CHUNK_WIDTH : Nat) : Int)) with
        | Air =>
          simp only [ChunkBlockState.is_air, if_pos]
          exact ih _ _
        | State key =>
          rw [hst] at h
          obtain ⟨mesh, faces, b, hgb, hm0⟩ := h
          simp only [ChunkBlockState.is_air, Bool.false_eq_true, if_false]
          by_cases hf : filter key = true
          · simp only [hf, Bool.not_true, Bool.false_eq_true, if_false, hgb]
            -- the voxel takes the `Cube` arm and emits nothing
            have hvox : ∃ ns, bakeVoxelT block_manager state_provider mapper mesh
                ((bi % CHUNK_WIDTH : Nat) : Int) ((bi / CHUNK_AREA : Nat) : Int)
                (((bi % CHUNK_AREA) / CHUNK_WIDTH : Nat) : Int)
                (chunk.pos.1 * 16 + ((bi % CHUNK_WIDTH : Nat) : Int))
                (chunk.pos.2 * 16 + (((bi % CHUNK_AREA) / CHUNK_WIDTH : Nat) : Int))
                = some ([], ns) := by
              unfold bakeVoxelT
              rw [hm0]
              obtain ⟨b1, hb1⟩ := opaque_check_total block_manager state_provider hcube
                (chunk.pos.1 * 16 + ((bi % CHUNK_WIDTH : Nat) : Int) + 1)
                ((bi / CHUNK_AREA : Nat) : Int)
                (chunk.pos.2 * 16 + (((bi % CHUNK_AREA) / CHUNK_WIDTH : Nat) : Int))
              obtain ⟨b2, hb2⟩ := opaque_check_total block_manager state_provider hcube
                (chunk.pos.1 * 16 + ((bi % CHUNK_WIDTH : Nat) : Int) - 1)
                ((bi / CHUNK_AREA : Nat) : Int)
                (chunk.pos.2 * 16 + (((bi % CHUNK_AREA) / CHUNK_WIDTH : Nat) : Int))
              obtain ⟨b3, hb3⟩ := opaque_check_total block_manager state_provider hcube
                (chunk.pos.1 * 16 + ((bi % CHUNK_WIDTH : Nat) : Int))
                (((bi / CHUNK_AREA : Nat) : Int) + 1)
                (chunk.pos.2 * 16 + (((bi % CHUNK_AREA) / CHUNK_WIDTH : Nat) : Int))
              obtain ⟨b4, hb4⟩ := opaque_check_total block_manager state_provider hcube
                (chunk.pos.1 * 16 + ((bi % CHUNK_WIDTH : Nat) : Int))
                (((bi / CHUNK_AREA : Nat) : Int) - 1)
                (chunk.pos.2 * 16 + (((bi % CHUNK_AREA) / CHUNK_WIDTH : Nat) : Int))
              obtain ⟨b5, hb5⟩ := opaque_check_total block_manager state_provider hcube
                (chunk.pos.1 * 16 + ((bi % CHUNK_WIDTH : Nat) : Int))
                ((bi / CHUNK_AREA : Nat) : Int)
                (chunk.pos.2 * 16 + (((bi % CHUNK_AREA) / CHUNK_WIDTH : Nat) : Int) + 1)
              obtain ⟨b6, hb6⟩ := opaque_check_total block_manager state_provider hcube
                (chunk.pos.1 * 16 + ((bi % CHUNK_WIDTH : Nat) : Int))
                ((bi / CHUNK_AREA : Nat) : Int)
                (chunk.pos.2 * 16 + (((bi % CHUNK_AREA) / CHUNK_WIDTH : Nat) : Int) - 1)
              rw [hb1, hb2, hb3, hb4, hb5, hb6]
              exact ⟨_, rfl⟩
            obtain ⟨ns, hns⟩ := hvox
            rw [hns]
            simpa using ih (bi + 1) _
          · simp only [hf]
            simpa using ih _ _

/-- Helper: the per-voxel `get_state` query of the loop body is only ever
made while the current section has been checked non-empty.  Stated as a loop
invariant: starting from a section boundary (or from a position whose
section is known non-empty), every recorded `main_calls` entry lies in a
section the provider did not report empty. -/
theorem bakeLoopT_main_calls_inv {V T : Type} (block_manager : BlockManager V)
    (chunk : Chunk) (mapper : V → Int → Int → Int → T)
    (filter : BlockstateKey → Bool) (state_provider : BlockStateProviderE) :
    ∀ (fuel block_index : Nat) (acc : BakeTrace T),
      (block_index % SECTION_VOLUME = 0 ∨
        state_provider.is_section_empty (block_index / SECTION_VOLUME) = false) →
      acc.main_calls.all
        (fun p => !state_provider.is_section_empty
          (p.2.1.toNat / CHUNK_SECTION_HEIGHT)) = true →
      Option.all
        (fun r => r.main_calls.all
          (fun p => !state_provider.is_section_empty
            (p.2.1.toNat / CHUNK_SECTION_HEIGHT)))
        (bakeLoopT block_manager chunk mapper filter state_provider fuel
          block_index acc) = true := by
  intro fuel
  induction fuel with
  | zero => intro bi acc _ hacc; exact hacc
  | succ fuel ih =>
    intro bi acc hinv hacc
    rw [bakeLoopT]
    by_cases h1 : CHUNK_VOLUME ≤ bi
    · simpa only [if_pos h1] using hacc
    · simp only [if_neg h1]
      by_cases h2 : (((bi % CHUNK_WIDTH : Nat) : Int) = 0 ∧
            (((bi % CHUNK_AREA) / CHUNK_WIDTH : Nat) : Int) = 0 ∧
            (bi / CHUNK_AREA) % CHUNK_SECTION_HEIGHT = 0) ∧
          state_provider.is_section_empty
            ((bi / CHUNK_AREA) / CHUNK_SECTION_HEIGHT) = true
      · simp only [if_pos h2]
        apply ih _ _ _ hacc
        left
        obtain ⟨⟨hx0, hz0, hy0⟩, _⟩ := h2
        have hx0' : bi % CHUNK_WIDTH = 0 := by exact_mod_cast hx0
        have hz0' : (bi % CHUNK_AREA) / CHUNK_WIDTH = 0 := by exact_mod_cast hz0
        simp only [CHUNK_WIDTH, CHUNK_AREA, CHUNK_SECTION_HEIGHT, SECTION_VOLUME] at *
        omega
      · simp only [if_neg h2]
        -- the body runs: the current section is not empty
        have hdd : (bi / CHUNK_AREA) / CHUNK_SECTION_HEIGHT = bi / SECTION_VOLUME := by
          simp only [CHUNK_AREA, CHUNK_WIDTH, CHUNK_SECTION_HEIGHT, SECTION_VOLUME]
          omega
        have hempty : state_provider.is_section_empty (bi / SECTION_VOLUME) = false := by
          rcases hinv with hmod | hne
          · cases hsec : state_provider.is_section_empty
                ((bi / CHUNK_AREA) / CHUNK_SECTION_HEIGHT) with
            | false => rwa [hdd] at hsec
            | true =>
              exfalso
              apply h2
              refine ⟨⟨?_, ?_, ?_⟩, hsec⟩
              · have hx : bi % CHUNK_WIDTH = 0 := by
                  simp only [CHUNK_WIDTH, SECTION_VOLUME, CHUNK_AREA,
                    CHUNK_SECTION_HEIGHT] at hmod ⊢
                  omega
                simp [hx]
              · have hz : (bi % CHUNK_AREA) / CHUNK_WIDTH = 0 := by
                  simp only [CHUNK_WIDTH, SECTION_VOLUME, CHUNK_AREA,
                    CHUNK_SECTION_HEIGHT] at hmod ⊢
                  omega
                simp [hz]
              · simp only [CHUNK_WIDTH, SECTION_VOLUME, CHUNK_AREA,
                  CHUNK_SECTION_HEIGHT] at hmod ⊢
                omega
          · exact hne
        have hsucc' : (bi + 1) % SECTION_VOLUME = 0 ∨
            state_provider.is_section_empty ((bi + 1) / SECTION_VOLUME) = false := by
          by_cases hb : (bi + 1) % SECTION_VOLUME = 0
          · exact Or.inl hb
          · right
            have heq : (bi + 1) / SECTION_VOLUME = bi / SECTION_VOLUME := by
              simp only [SECTION_VOLUME, CHUNK_AREA, CHUNK_WIDTH,
                CHUNK_SECTION_HEIGHT] at hb ⊢
              omega
            rwa [heq]
        -- the newly recorded entry lies in the (non-empty) current section
        have hentry : (!state_provider.is_section_empty
            ((((bi / CHUNK_AREA : Nat) : Int)).toNat / CHUNK_SECTION_HEIGHT)) = true := by
          have : (((bi / CHUNK_AREA : Nat) : Int)).toNat / CHUNK_SECTION_HEIGHT
              = bi / SECTION_VOLUME := by
            rw [Int.toNat_natCast]
            simp only [CHUNK_AREA, CHUNK_WIDTH, CHUNK_SECTION_HEIGHT, SECTION_VOLUME]
            omega
          rw [this, hempty]
          rfl
        have hacc' : (acc.main_calls ++
            [(chunk.pos.1 * 16 + ((bi % CHUNK_WIDTH : Nat) : Int),
              ((bi / CHUNK_AREA : Nat) : Int),
              chunk.pos.2 * 16 + (((bi % CHUNK_AREA) / CHUNK_WIDTH : Nat) : Int))]).all
            (fun p => !state_provider.is_section_empty
              (p.2.1.toNat / CHUNK_SECTION_HEIGHT)) = true := by
          rw [List.all_append, hacc]
          simpa using hentry
        cases hst : state_provider.get_state
            (chunk.pos.1 * 16 + ((bi % CHUNK_WIDTH : Nat) : Int))
            ((bi / CHUNK_AREA : Nat) : Int)
            (chunk.pos.2 * 16 + (((bi % CHUNK_AREA) / CHUNK_WIDTH : Nat) : Int)) with
        | Air =>
          simp only [ChunkBlockState.is_air, if_pos]
          exact ih (bi + 1) _ hsucc' hacc'
        | State key =>
          simp only [ChunkBlockState.is_air, Bool.false_eq_true, if_false]
          by_cases hf : filter key = true
          · simp only [hf, Bool.not_true, Bool.false_eq_true, if_false]
            cases hgb : get_block block_manager (ChunkBlockState.State key) with
            | none => rfl
            | some mesh =>
              dsimp only
              cases hvt : bakeVoxelT block_manager state_provider mapper mesh
                  ((bi % CHUNK_WIDTH : Nat) : Int) ((bi / CHUNK_AREA : Nat) : Int)
                  (((bi % CHUNK_AREA) / CHUNK_WIDTH : Nat) : Int)
                  (chunk.pos.1 * 16 + ((bi % CHUNK_WIDTH : Nat) : Int))
                  (chunk.pos.2 * 16 + (((bi % CHUNK_AREA) / CHUNK_WIDTH : Nat) : Int)) with
              | none => rfl
              | some pair =>
                exact ih (bi + 1) _ hsucc' hacc'
          · simp only [hf]
            exact ih (bi + 1) _ hsucc' hacc'

/-- Helper: when the provider reports every section empty the loop skips
section by section and accumulates nothing at all. -/
theorem bakeLoopT_all_empty {V T : Type} (block_manager : BlockManager V)
    (chunk : Chunk) (mapper : V → Int → Int → Int → T)
    (filter : BlockstateKey → Bool) (state_provider : BlockStateProviderE)
    (hall : ∀ s, state_provider.is_section_empty s = true) :
    ∀ (fuel block_index : Nat) (acc : BakeTrace T),
      block_index % SECTION_VOLUME = 0 →
      bakeLoopT block_manager chunk mapper filter state_provider fuel block_index acc
        = some acc := by
  intro fuel
  induction fuel with
  | zero => intro bi acc _; rfl
  | succ fuel ih =>
    intro bi acc hmod
    rw [bakeLoopT]
    by_cases h1 : CHUNK_VOLUME ≤ bi
    · simp only [if_pos h1]
    · simp only [if_neg h1]
      have hcond : (((bi % CHUNK_WIDTH : Nat) : Int) = 0 ∧
            (((bi % CHUNK_AREA) / CHUNK_WIDTH : Nat) : Int) = 0 ∧
            (bi / CHUNK_AREA) % CHUNK_SECTION_HEIGHT = 0) ∧
          state_provider.is_section_empty
            ((bi / CHUNK_AREA) / CHUNK_SECTION_HEIGHT) = true := by
        refine ⟨⟨?_, ?_, ?_⟩, hall _⟩
        · have : bi % CHUNK_WIDTH = 0 := by
            simp only [CHUNK_WIDTH, SECTION_VOLUME, CHUNK_AREA,
              CHUNK_SECTION_HEIGHT] at *
            omega
          simp [this]
        · have : (bi % CHUNK_AREA) / CHUNK_WIDTH = 0 := by
            simp only [CHUNK_WIDTH, SECTION_VOLUME, CHUNK_AREA,
              CHUNK_SECTION_HEIGHT] at *
            omega
          simp [this]
        · simp only [CHUNK_WIDTH, SECTION_VOLUME, CHUNK_AREA,
            CHUNK_SECTION_HEIGHT] at *
          omega
      simp only [if_pos hcond]
      apply ih
      simp only [SECTION_VOLUME, CHUNK_AREA, CHUNK_WIDTH, CHUNK_SECTION_HEIGHT] at *
      omega

/-! ## Concrete worlds used by the mesher claims -/

/-- The trivial layer filter: every blockstate belongs to the layer. -/
def idFilter : BlockstateKey → Bool := fun _ => true

/-- A mapper that tags each vertex with the chunk-local coordinates the
mesher passed along, exposing exactly what reaches the vertex stream. -/
def tagMapper : Nat → Int → Int → Int → Nat × Int × Int × Int :=
  fun v x y z => (v, x, y, z)

/-- A cube-shaped set of faces whose "up" face carries 4 vertices.  The
contents are irrelevant to the `Cube` arm of the mesher, which never reads
the model. -/
def cubeFaces : BlockModelFacesC Nat :=
  { north := none, east := none, south := none, west := none,
    up := some [10, 11, 12, 13], down := none }

/-- A cube mesh that does not fully obscure its neighbours
(`models[0].1 = true`). -/
def cubeMeshTransparent : ModelMeshC Nat :=
  { models := [(CubeOrComplexMesh.Cube cubeFaces, true)] }

/-- A fully opaque cube mesh (`models[0].1 = false`: neighbours of this
block need not be rendered). -/
def cubeMeshOpaque : ModelMeshC Nat :=
  { models := [(CubeOrComplexMesh.Cube cubeFaces, false)] }

/-- Block manager for the C1 world: block 0 is a cube block, block 1 is a
fully opaque cube block. -/
def c1BM : BlockManager Nat :=
  { blocks := [fun _ => cubeMeshTransparent, fun _ => cubeMeshOpaque] }

/-- The C1 world: a cube block at chunk-local (8, 8, 8) whose six neighbours
are fully opaque cube blocks except the one above, which is air (hence not
fully opaque).  All sections above section 0 are reported empty. -/
def c1Provider : BlockStateProviderE :=
  { get_state := fun x y z =>
      if x = 8 ∧ y = 8 ∧ z = 8 then ChunkBlockState.State ⟨0, 0⟩
      else if ((x = 7 ∨ x = 9) ∧ y = 8 ∧ z = 8) ∨ (x = 8 ∧ y = 7 ∧ z = 8) ∨
          (x = 8 ∧ y = 8 ∧ (z = 7 ∨ z = 9)) then ChunkBlockState.State ⟨1, 0⟩
      else ChunkBlockState.Air
    is_section_empty := fun i => decide (i ≠ 0) }

/-- Block manager for single-block worlds: block 0 is the only block. -/
def soloCubeBM : BlockManager Nat :=
  { blocks := [fun _ => cubeMeshTransparent] }

/-- The C4 world: a single cube block at chunk-local (0, 15, 0), directly
below section 1; every section except section 0 is reported empty. -/
def c4Provider : BlockStateProviderE :=
  { get_state := fun x y z =>
      if x = 0 ∧ y = 15 ∧ z = 0 then ChunkBlockState.State ⟨0, 0⟩
      else ChunkBlockState.Air
    is_section_empty := fun i => decide (i ≠ 0) }

/-- A complex (non-full-cube) set of faces: north, east and up are present
(4 vertices each), the other three faces are absent. -/
def complexFaces : BlockModelFacesC Nat :=
  { north := some [1, 2, 3, 4], east := some [5, 6, 7, 8],
    south := none, west := none, up := some [9, 10, 11, 12], down := none }

/-- A complex mesh made of the single element `complexFaces`. -/
def complexMesh : ModelMeshC Nat :=
  { models := [(CubeOrComplexMesh.Complex [complexFaces], true)] }

/-- Block manager for the complex-mesh worlds: block 0 is the complex block. -/
def soloComplexBM : BlockManager Nat :=
  { blocks := [fun _ => complexMesh] }

/-- The C6 world: a single complex block at chunk-local (8, 8, 8); every
section except section 0 is reported empty. -/
def c6Provider : BlockStateProviderE :=
  { get_state := fun x y z =>
      if x = 8 ∧ y = 8 ∧ z = 8 then ChunkBlockState.State ⟨0, 0⟩
      else ChunkBlockState.Air
    is_section_empty := fun i => decide (i ≠ 0) }

/-- **C1.**  The claim states that for a cube-shaped voxel whose only
non-opaque neighbour is the one above, `bake_layer` emits exactly the 4
vertices of the "up" face.  In the source the six `if render_*` bodies of
the `Cube` arm are empty (chunk.rs lines 258–275), so the run emits **no**
vertices at all: in the C1 world — cube block at (8, 8, 8), five fully
opaque cube neighbours, air above, the mesh's up face carrying 4 vertices —
`bake_layer` returns `some []`. -/
theorem c1_cube_block_emits_no_vertices :
    bake_layer c1BM ⟨(0, 0)⟩ (fun v _ _ _ => v) idFilter c1Provider = some [] := by
  have hcube : allCubeWorld c1BM c1Provider := by
    intro x y z
    rcases hst : c1Provider.get_state x y z with _ | key
    · trivial
    · dsimp only
      unfold c1Provider at hst
      dsimp only at hst
      split at hst
      · cases hst
        exact ⟨cubeMeshTransparent, cubeFaces, true, rfl, rfl⟩
      · split at hst
        · cases hst
          exact ⟨cubeMeshOpaque, cubeFaces, false, rfl, rfl⟩
        · cases hst
  obtain ⟨m', n', h⟩ := bakeLoopT_all_cube c1BM ⟨(0, 0)⟩ (fun v _ _ _ => v)
    idFilter c1Provider hcube (CHUNK_VOLUME + 1) 0
    { vertices := [], main_calls := [], neighbor_calls := [] }
  have hfst := bakeLoopT_fst c1BM ⟨(0, 0)⟩ (fun v _ _ _ => v) idFilter c1Provider
    (CHUNK_VOLUME + 1) 0 { vertices := [], main_calls := [], neighbor_calls := [] }
  rw [h] at hfst
  unfold bake_layer
  rw [← hfst]
  rfl

/-- A provider that reports every section empty (used to witness C4). -/
def allEmptyProvider : BlockStateProviderE :=
  { get_state := fun _ _ _ => ChunkBlockState.Air
    is_section_empty := fun _ => true }

/-- **C4 (amended).**  (1) Every per-voxel `get_state` query the mesher's
loop body makes is at a position whose section the provider did not report
empty — the whole 16×16×16 section is skipped in one step, so voxels of an
empty section are never visited and contribute no vertices.  (2) In
particular, if every section is empty, `bake_layer` returns `some []`.
(The claim's further assertion that `get_state` is *never* called for any
position inside an empty section is false — see the counterexample: the
neighbour-opacity checks of an adjacent voxel may query into an empty
section.) -/
theorem c4_empty_sections_are_skipped {V T : Type} (block_manager : BlockManager V)
    (chunk : Chunk) (mapper : V → Int → Int → Int → T)
    (filter : BlockstateKey → Bool) (state_provider : BlockStateProviderE) :
    Option.all
      (fun r => r.main_calls.all
        (fun p => !state_provider.is_section_empty
          (p.2.1.toNat / CHUNK_SECTION_HEIGHT)))
      (bake_layer_traced block_manager chunk mapper filter state_provider) = true ∧
    ((∀ s, state_provider.is_section_empty s = true) →
      bake_layer block_manager chunk mapper filter state_provider = some []) := by
  constructor
  · exact bakeLoopT_main_calls_inv block_manager chunk mapper filter state_provider
      (CHUNK_VOLUME + 1) 0 { vertices := [], main_calls := [], neighbor_calls := [] }
      (Or.inl rfl) rfl
  · intro hall
    have h := bakeLoopT_all_empty block_manager chunk mapper filter state_provider
      hall (CHUNK_VOLUME + 1) 0
      { vertices := [], main_calls := [], neighbor_calls := [] } rfl
    have hfst := bakeLoopT_fst block_manager chunk mapper filter state_provider
      (CHUNK_VOLUME + 1) 0 { vertices := [], main_calls := [], neighbor_calls := [] }
    rw [h] at hfst
    unfold bake_layer
    rw [← hfst]
    rfl

/-- **C4 (counterexample).**  The claim "the mesher never calls `get_state`
for any position in a section reported empty" is false: in the C4 world the
cube block at (0, 15, 0) sits directly below the empty section 1, and its
"up" neighbour-opacity check calls `get_state` at (0, 16, 0) — a position
inside the empty section (16 / 16 = section 1). -/
theorem c4_counterexample_neighbor_query_in_empty_section :
    Option.any
      (fun r => decide ((0, 16, 0) ∈ r.neighbor_calls))
      (bake_layer_traced soloCubeBM ⟨(0, 0)⟩ (fun v _ _ _ => v) idFilter
        c4Provider) = true ∧
    c4Provider.is_section_empty (16 / CHUNK_SECTION_HEIGHT) = true := by
  have hstate : ∀ x y z : Int,
      c4Provider.get_state x y z =
        if x = (Chunk.mk (0, 0)).pos.1 * 16 + ((0 : Nat) : Int) ∧
            y = ((15 : Nat) : Int) ∧
            z = (Chunk.mk (0, 0)).pos.2 * 16 + ((0 : Nat) : Int) then
          ChunkBlockState.State ⟨0, 0⟩
        else ChunkBlockState.Air := by
    intro x y z
    norm_num [c4Provider]
  obtain ⟨m', h⟩ := bakeLoopT_single_block soloCubeBM ⟨(0, 0)⟩ (fun v _ _ _ => v)
    idFilter c4Provider 0 15 0 (by norm_num) (by norm_num) (by norm_num)
    ⟨0, 0⟩ cubeMeshTransparent []
    [(1, 15, 0), (-1, 15, 0), (0, 16, 0), (0, 14, 0), (0, 15, 1), (0, 15, -1)]
    hstate (by decide) rfl rfl (by decide)
  rw [h]
  constructor
  · simp [Option.any]
  · decide

/-- Helper: the full `bake_layer` run over the C6 world returns the 12
mapped vertices of the single complex block at (8, 8, 8). -/
theorem bake_layer_c6_world :
    bake_layer soloComplexBM ⟨(0, 0)⟩ tagMapper idFilter c6Provider
      = some [(1, 8, 8, 8), (2, 8, 8, 8), (3, 8, 8, 8), (4, 8, 8, 8),
              (5, 8, 8, 8), (6, 8, 8, 8), (7, 8, 8, 8), (8, 8, 8, 8),
              (9, 8, 8, 8), (10, 8, 8, 8), (11, 8, 8, 8), (12, 8, 8, 8)] := by
  have hstate : ∀ x y z : Int,
      c6Provider.get_state x y z =
        if x = (Chunk.mk (0, 0)).pos.1 * 16 + ((8 : Nat) : Int) ∧
            y = ((8 : Nat) : Int) ∧
            z = (Chunk.mk (0, 0)).pos.2 * 16 + ((8 : Nat) : Int) then
          ChunkBlockState.State ⟨0, 0⟩
        else ChunkBlockState.Air := by
    intro x y z
    norm_num [c6Provider]
  obtain ⟨m', h⟩ := bakeLoopT_single_block soloComplexBM ⟨(0, 0)⟩ tagMapper
    idFilter c6Provider 8 8 8 (by norm_num) (by norm_num) (by norm_num)
    ⟨0, 0⟩ complexMesh
    [(1, 8, 8, 8), (2, 8, 8, 8), (3, 8, 8, 8), (4, 8, 8, 8),
     (5, 8, 8, 8), (6, 8, 8, 8), (7, 8, 8, 8), (8, 8, 8, 8),
     (9, 8, 8, 8), (10, 8, 8, 8), (11, 8, 8, 8), (12, 8, 8, 8)] []
    hstate (by decide) rfl rfl (by decide)
  have hfst := bakeLoopT_fst soloComplexBM ⟨(0, 0)⟩ tagMapper idFilter c6Provider
    (CHUNK_VOLUME + 1) 0 { vertices := [], main_calls := [], neighbor_calls := [] }
  unfold bake_layer_traced at h
  rw [h] at hfst
  unfold bake_layer
  rw [← hfst]
  rfl

/-- **C6.**  For a voxel whose mesh is complex (`models[0].0` is
`Complex`), the mesher emits the vertices of every face present in every
element — in the order north, east, south, west, up, down, absent faces
contributing nothing — each passed through the layer's `mapper`, and this
is independent of the block manager and the state provider (no
neighbour-opacity culling: both are unused by the `Complex` arm).
Concretely, in the C6 world (one complex block at (8, 8, 8) with faces
north `[1,2,3,4]`, east `[5,6,7,8]`, up `[9,10,11,12]` and the other three
absent), `bake_layer` returns exactly those 12 vertices tagged by the
mapper with the block's chunk-local coordinates. -/
theorem c6_complex_mesh_emits_all_faces {V T : Type}
    (block_manager : BlockManager V) (state_provider : BlockStateProviderE)
    (mapper : V → Int → Int → Int → T) (mesh : ModelMeshC V)
    (m : List (BlockModelFacesC V)) (flag : Bool)
    (rest : List (CubeOrComplexMesh V × Bool)) (x y z absolute_x absolute_z : Int)
    (hmesh : mesh.models = (CubeOrComplexMesh.Complex m, flag) :: rest) :
    bakeVoxel block_manager state_provider mapper mesh x y z absolute_x absolute_z
      = some ((m.map (fun faces =>
          ([faces.north, faces.east, faces.south, faces.west, faces.up,
            faces.down].filterMap id).flatten)).flatten.map (fun v => mapper v x y z)) ∧
    bake_layer soloComplexBM ⟨(0, 0)⟩ tagMapper idFilter c6Provider
      = some [(1, 8, 8, 8), (2, 8, 8, 8), (3, 8, 8, 8), (4, 8, 8, 8),
              (5, 8, 8, 8), (6, 8, 8, 8), (7, 8, 8, 8), (8, 8, 8, 8),
              (9, 8, 8, 8), (10, 8, 8, 8), (11, 8, 8, 8), (12, 8, 8, 8)] := by
  constructor
  · unfold bakeVoxel
    rw [hmesh]
    rfl
  · exact bake_layer_c6_world

/-- Witness for C4: in a world where every section is empty, all per-voxel
queries satisfy the non-empty-section property (vacuously — there are none)
and `bake_layer` emits nothing. -/
theorem c4_witness :
    Option.all
      (fun r => r.main_calls.all
        (fun p => !allEmptyProvider.is_section_empty
          (p.2.1.toNat / CHUNK_SECTION_HEIGHT)))
      (bake_layer_traced soloCubeBM ⟨(0, 0)⟩ (fun v _ _ _ => v) idFilter
        allEmptyProvider) = true ∧
    bake_layer soloCubeBM ⟨(0, 0)⟩ (fun v _ _ _ => v) idFilter allEmptyProvider
      = some [] :=
  ⟨(c4_empty_sections_are_skipped soloCubeBM ⟨(0, 0)⟩ (fun v _ _ _ => v) idFilter
      allEmptyProvider).1,
   (c4_empty_sections_are_skipped soloCubeBM ⟨(0, 0)⟩ (fun v _ _ _ => v) idFilter
      allEmptyProvider).2 (fun _ => rfl)⟩

/-- Witness for C6: the per-voxel equation evaluated at the C6 world's
complex mesh. -/
theorem c6_witness :
    bakeVoxel soloComplexBM c6Provider tagMapper complexMesh 8 8 8 8 8
      = some [(1, 8, 8, 8), (2, 8, 8, 8), (3, 8, 8, 8), (4, 8, 8, 8),
              (5, 8, 8, 8), (6, 8, 8, 8), (7, 8, 8, 8), (8, 8, 8, 8),
              (9, 8, 8, 8), (10, 8, 8, 8), (11, 8, 8, 8), (12, 8, 8, 8)] ∧
    bake_layer soloComplexBM ⟨(0, 0)⟩ tagMapper idFilter c6Provider
      = some [(1, 8, 8, 8), (2, 8, 8, 8), (3, 8, 8, 8), (4, 8, 8, 8),
              (5, 8, 8, 8), (6, 8, 8, 8), (7, 8, 8, 8), (8, 8, 8, 8),
              (9, 8, 8, 8), (10, 8, 8, 8), (11, 8, 8, 8), (12, 8, 8, 8)] := by
  have h := c6_complex_mesh_emits_all_faces soloComplexBM c6Provider tagMapper
    complexMesh [complexFaces] true [] 8 8 8 8 8 rfl
  exact ⟨by rw [h.1]; decide, h.2⟩

/-! ## Chunk GPU buffer allocator and `Chunk::bake_chunk`
(chunk.rs lines 42–45 and 112–147) -/

/-- Modelled from the `range_alloc` crate (an external dependency):
`RangeAllocator<usize>` keeps the currently free, pairwise disjoint
half-open ranges of `[0, CHUNK_ALLOCATOR_SIZE)` in address order. -/
structure RangeAllocator where
  free_ranges : List (Nat × Nat)
deriving DecidableEq, Repr

/-- Modelled from the `range_alloc` crate: first-fit search over the free
list.  Takes `length` bytes from the start of the first free range that is
large enough; returns the granted range and the remaining free list, or
`none` when no free range fits. -/
def allocateFirstFit (length : Nat) :
    List (Nat × Nat) → Option ((Nat × Nat) × List (Nat × Nat))
  | [] => none
  | (s, e) :: rest =>
    if length ≤ e - s then
      some ((s, s + length),
        if s + length = e then rest else (s + length, e) :: rest)
    else
      (allocateFirstFit length rest).map (fun p => (p.1, (s, e) :: p.2))

/-- Modelled from the `range_alloc` crate:
`RangeAllocator::allocate_range(length)`.  The crate begins with
`assert_ne!(length + length, length)`, a panic (`none`) when `length = 0`;
a failed search is `Err`, which `bake_chunk` immediately `unwrap`s, so both
failure modes are `none` here. -/
def allocate_range (self : RangeAllocator) (length : Nat) :
    Option ((Nat × Nat) × RangeAllocator) :=
  if length = 0 then none
  else (allocateFirstFit length self.free_ranges).map (fun p => (p.1, ⟨p.2⟩))

/-- The allocator's total free capacity in bytes. -/
def freeCapacity (self : RangeAllocator) : Nat :=
  (self.free_ranges.map (fun r => r.2 - r.1)).sum

/-- The `RenderLayer` trait (chunk.rs lines 86–92): a name, a blockstate
filter and a vertex mapper. -/
structure RenderLayerE (V T : Type) where
  name : String
  filter : BlockstateKey → Bool
  mapper : V → Int → Int → Int → T

/-- The state `bake_chunk` interacts with: the shared chunk allocator
(`wm.mc.chunks.chunk_allocation.allocator`) and the log of
`queue.write_buffer` calls, each recorded as (byte offset, byte length). -/
structure ChunkManagerState where
  allocator : RangeAllocator
  writes : List (Nat × Nat)
deriving DecidableEq, Repr

/-- `Chunk::bake_chunk` (chunk.rs lines 112–147).  For each layer, in
order: bake the layer's vertices, request `verts.len() * size_of::<Vertex>()`
bytes from the shared allocator (`.unwrap()` — `none` on failure), write
the vertex bytes at the granted offset, and collect `(layer.name, range)`.
Finally `*self.baked_layers.write() = baked_layers` replaces the chunk's
previous layer→range map: the old ranges (`_baked_layers`) are discarded
without ever being returned to the allocator.  `size_of::<Vertex>()` is the
`vertex_size` parameter (the `Vertex` struct lives in
`render/pipeline.rs`, which is not among the given sources).  Returns the
updated allocator/write state and the new `baked_layers` map. -/
def bake_chunk {V T : Type} (vertex_size : Nat) (layers : List (RenderLayerE V T))
    (block_manager : BlockManager V) (chunk : Chunk)
    (provider : BlockStateProviderE) (st : ChunkManagerState)
    (_baked_layers : List (String × (Nat × Nat))) :
    Option (ChunkManagerState × List (String × (Nat × Nat))) :=
  layers.foldlM
    (fun (acc : ChunkManagerState × List (String × (Nat × Nat))) layer => do
      let verts ← bake_layer block_manager chunk layer.mapper layer.filter provider
      let size := verts.length * vertex_size
      let (range, allocator') ← allocate_range acc.1.allocator size
      some ({ allocator := allocator', writes := acc.1.writes ++ [(range.1, size)] },
        acc.2 ++ [(layer.name, range)]))
    (st, [])

/-- Helper: `bake_chunk` over a single layer, written out. -/
theorem bake_chunk_singleton {V T : Type} (vertex_size : Nat)
    (layer : RenderLayerE V T) (block_manager : BlockManager V) (chunk : Chunk)
    (provider : BlockStateProviderE) (st : ChunkManagerState)
    (baked : List (String × (Nat × Nat))) :
    bake_chunk vertex_size [layer] block_manager chunk provider st baked
      = (bake_layer block_manager chunk layer.mapper layer.filter provider).bind
          (fun verts =>
            (allocate_range st.allocator (verts.length * vertex_size)).map
              (fun p =>
                ({ allocator := p.2,
                   writes := st.writes ++ [(p.1.1, verts.length * vertex_size)] },
                 [(layer.name, p.1)]))) := by
  unfold bake_chunk
  cases hv : bake_layer block_manager chunk layer.mapper layer.filter provider with
  | none => simp [List.foldlM, hv, Option.bind]
  | some verts =>
    cases ha : allocate_range st.allocator (verts.length * vertex_size) with
    | none => simp [List.foldlM, hv, ha, Option.bind]
    | some p => simp [List.foldlM, hv, ha, Option.bind]

/-- The render layer used by the C2 and C8 scenarios. -/
def terrainLayer : RenderLayerE Nat (Nat × Int × Int × Int) :=
  { name := "terrain", filter := idFilter, mapper := tagMapper }

/-- Initial state for C2: the whole chunk buffer is one free range and no
writes have been issued. -/
def c2State0 : ChunkManagerState :=
  { allocator := ⟨[(0, CHUNK_ALLOCATOR_SIZE)]⟩, writes := [] }

/-- First bake of the C2 scenario (vertex stride 1 byte, one layer, the C6
single-complex-block world: 12 vertices, so a 12-byte range). -/
def c2Run1 : Option (ChunkManagerState × List (String × (Nat × Nat))) :=
  bake_chunk 1 [terrainLayer] soloComplexBM ⟨(0, 0)⟩ c6Provider c2State0 []

/-- Second, identical bake of the same chunk, starting from the state and
`baked_layers` map left by the first bake. -/
def c2Run2 : Option (ChunkManagerState × List (String × (Nat × Nat))) :=
  c2Run1.bind (fun r =>
    bake_chunk 1 [terrainLayer] soloComplexBM ⟨(0, 0)⟩ c6Provider r.1 r.2)

/-- **C2.**  The claim states that re-baking a chunk with identical inputs
releases the previous ranges, leaving the allocator's free capacity
unchanged.  In the source `bake_chunk` never calls any `free`/deallocate
function: `*self.baked_layers.write() = baked_layers` simply discards the
old ranges.  Concretely, after the first bake of the C2 scenario the free
capacity is `CHUNK_ALLOCATOR_SIZE - 12`; after re-baking the same chunk
with identical inputs it is `CHUNK_ALLOCATOR_SIZE - 24`, not
`CHUNK_ALLOCATOR_SIZE - 12`: each rebake leaks the previous range. -/
theorem c2_rebake_leaks_allocator_capacity :
    c2Run1.map (fun r => freeCapacity r.1.allocator)
      = some (CHUNK_ALLOCATOR_SIZE - 12) ∧
    c2Run2.map (fun r => freeCapacity r.1.allocator)
      = some (CHUNK_ALLOCATOR_SIZE - 24) ∧
    CHUNK_ALLOCATOR_SIZE - 24 ≠ CHUNK_ALLOCATOR_SIZE - 12 := by
  have h1 : c2Run1 = some
      ({ allocator := ⟨[(12, CHUNK_ALLOCATOR_SIZE)]⟩, writes := [(0, 12)] },
       [("terrain", (0, 12))]) := by
    unfold c2Run1
    rw [bake_chunk_singleton]
    rw [show terrainLayer.mapper = tagMapper from rfl,
      show terrainLayer.filter = idFilter from rfl, bake_layer_c6_world]
    decide
  have h2 : c2Run2 = some
      ({ allocator := ⟨[(24, CHUNK_ALLOCATOR_SIZE)]⟩, writes := [(0, 12), (12, 12)] },
       [("terrain", (12, 24))]) := by
    unfold c2Run2
    rw [h1]
    show bake_chunk 1 [terrainLayer] soloComplexBM ⟨(0, 0)⟩ c6Provider
      { allocator := ⟨[(12, CHUNK_ALLOCATOR_SIZE)]⟩, writes := [(0, 12)] }
      [("terrain", (0, 12))] = _
    rw [bake_chunk_singleton]
    rw [show terrainLayer.mapper = tagMapper from rfl,
      show terrainLayer.filter = idFilter from rfl, bake_layer_c6_world]
    decide
  refine ⟨by rw [h1]; decide, by rw [h2]; decide, by decide⟩

/-- **C8.**  If the shared range allocator cannot satisfy the byte range
requested for a layer during `bake_chunk` (the chunk GPU buffer is
exhausted), the whole bake attempt fails — the `.unwrap()` panic on the
allocation `Err` propagates (`none`) — rather than continuing with a
missing range; in particular the chunk's `baked_layers` map is not
replaced. -/
theorem c8_allocation_failure_is_surfaced {V T : Type} (vertex_size : Nat)
    (layer : RenderLayerE V T) (block_manager : BlockManager V) (chunk : Chunk)
    (provider : BlockStateProviderE) (st : ChunkManagerState)
    (baked : List (String × (Nat × Nat))) (verts : List T)
    (hverts : bake_layer block_manager chunk layer.mapper layer.filter provider
      = some verts)
    (hfail : allocate_range st.allocator (verts.length * vertex_size) = none) :
    bake_chunk vertex_size [layer] block_manager chunk provider st baked = none := by
  rw [bake_chunk_singleton, hverts]
  simp [hfail]

/-- Witness for C8: baking the C6 world with a fully exhausted allocator
(no free ranges) fails as a whole. -/
theorem c8_witness :
    bake_chunk 1 [terrainLayer] soloComplexBM ⟨(0, 0)⟩ c6Provider
      ⟨⟨[]⟩, []⟩ [] = none :=
  c8_allocation_failure_is_surfaced 1 terrainLayer soloComplexBM ⟨(0, 0)⟩
    c6Provider ⟨⟨[]⟩, []⟩ [] _ bake_layer_c6_world (by decide)

/-- **C3.**  For every `BlockstateKey` (its fields being `u16`:
`block < 2^16`, `augment < 2^16`), converting the packed 32-bit encoding
`block << 16 | augment` back through the `From<u32>` conversion recovers
the original key: `unpack(pack(key)) = key`. -/
theorem c3_pack_unpack_roundtrip (key : BlockstateKey) (hb : key.block < 2 ^ 16)
    (ha : key.augment < 2 ^ 16) : BlockstateKey.fromU32 key.pack = key := by
  unfold BlockstateKey.fromU32 BlockstateKey.pack
  have hhi : (key.block <<< 16 ||| key.augment) >>> 16 = key.block := by
    apply Nat.eq_of_testBit_eq
    intro i
    have hb2 : Nat.testBit key.augment (16 + i) = false :=
      Nat.testBit_lt_two_pow
        (lt_of_lt_of_le ha (Nat.pow_le_pow_right (by norm_num) (by omega)))
    simp [Nat.testBit_shiftRight, Nat.testBit_or, Nat.testBit_shiftLeft, hb2]
  have hlo : (key.block <<< 16 ||| key.augment) &&& 0xffff = key.augment := by
    apply Nat.eq_of_testBit_eq
    intro i
    simp only [Nat.testBit_and, Nat.testBit_or, Nat.testBit_shiftLeft]
    by_cases hi : i < 16
    · have h1 : Nat.testBit 0xffff i = true := by
        interval_cases i <;> decide
      have h2 : decide (16 ≤ i) = false := by simp; omega
      simp [h1, h2]
    · have h1 : Nat.testBit 0xffff i = false := by
        apply Nat.testBit_lt_two_pow
        calc (0xffff : Nat) < 2 ^ 16 := by norm_num
        _ ≤ 2 ^ i := Nat.pow_le_pow_right (by norm_num) (by omega)
      have h2 : Nat.testBit key.augment i = false :=
        Nat.testBit_lt_two_pow
          (lt_of_lt_of_le ha (Nat.pow_le_pow_right (by norm_num) (by omega)))
      simp [h1, h2]
  rw [hhi, hlo, Nat.mod_eq_of_lt hb, Nat.mod_eq_of_lt ha]

/-- Witness for C3: the round-trip at the concrete key (5, 9);
`pack ⟨5, 9⟩ = 0x50009`. -/
theorem c3_witness :
    BlockstateKey.fromU32 (BlockstateKey.mk 5 9).pack = BlockstateKey.mk 5 9 ∧
    (BlockstateKey.mk 5 9).pack = 0x50009 :=
  ⟨c3_pack_unpack_roundtrip ⟨5, 9⟩ (by decide) (by decide), by decide⟩

/-! ## `WmRenderer` (lib.rs lines 198–219 and 284–317) -/

/-- `wgpu::SurfaceConfiguration` as `update_surface_size` uses it: the
`width` and `height` fields (`u32`, embedded as `Nat`) are the only ones
read or written; the remaining fields are abstracted as `rest`. -/
structure SurfaceConfiguration (E : Type) where
  width : Nat
  height : Nat
  rest : E
deriving DecidableEq, Repr

/-- `WindowSize` (lib.rs lines 94–98). -/
structure WindowSize where
  width : Nat
  height : Nat
deriving DecidableEq, Repr

/-- `WmRenderer::update_surface_size` (lib.rs lines 198–219): returns
`None` when either dimension of the new size is `0`; otherwise sets the
configuration's `width`/`height` to the new size and returns `Some` of it.
(The function also re-creates every registered texture handle at the new
size; that touches only GPU state and the handle map, never the returned
configuration, and is not modelled.) -/
def update_surface_size {E : Type} (surface_config : SurfaceConfiguration E)
    (new_size : WindowSize) : Option (SurfaceConfiguration E) :=
  if new_size.width = 0 ∨ new_size.height = 0 then none
  else some { surface_config with width := new_size.width, height := new_size.height }

/-- **C9.**  `update_surface_size` returns `None` exactly when the new
window size has a zero dimension; for any size with both dimensions
non-zero it returns `Some` of the input configuration with only its width
and height replaced by the new size (all other fields unchanged). -/
theorem c9_update_surface_size {E : Type} (surface_config : SurfaceConfiguration E)
    (new_size : WindowSize) :
    (update_surface_size surface_config new_size = none ↔
      (new_size.width = 0 ∨ new_size.height = 0)) ∧
    (new_size.width ≠ 0 → new_size.height ≠ 0 →
      update_surface_size surface_config new_size
        = some { width := new_size.width, height := new_size.height,
                 rest := surface_config.rest }) := by
  constructor
  · unfold update_surface_size
    by_cases h : new_size.width = 0 ∨ new_size.height = 0
    · simp [h]
    · simp [h]
  · intro hw hh
    unfold update_surface_size
    rw [if_neg (by tauto)]

/-- Witness for C9: a 640×480 resize of an 800×600 configuration (with a
distinguishable `rest` field) succeeds and keeps `rest`; a 0-width resize
returns `None`. -/
theorem c9_witness :
    update_surface_size (E := String) ⟨800, 600, "fmt"⟩ ⟨640, 480⟩
        = some ⟨640, 480, "fmt"⟩ ∧
    update_surface_size (E := String) ⟨800, 600, "fmt"⟩ ⟨0, 480⟩ = none := by
  refine ⟨(c9_update_surface_size ⟨800, 600, "fmt"⟩ ⟨640, 480⟩).2 (by decide) (by decide), ?_⟩
  exact (c9_update_surface_size ⟨800, 600, "fmt"⟩ ⟨0, 480⟩).1.mpr (by decide)

/-- The `WmRenderer` state touched by `submit_chunk_updates`:
`chunk_update_queue` holds the pending `(buffer, bytes)` writes (the buffer
handle type is abstract); `staged_writes` is the log of writes copied into
the staging belt of a submitted encoder; `submissions` counts
`queue.submit` calls. -/
structure RendererState (B : Type) where
  chunk_update_queue : List (B × List Nat)
  staged_writes : List (B × List Nat)
  submissions : Nat
deriving DecidableEq, Repr

/-- `WmRenderer::submit_chunk_updates` (lib.rs lines 284–317):
`std::mem::take` drains the queue, leaving it empty; if the drained list
has length 0 the function returns before creating the command encoder; each
update is then staged with `NonZeroU64::new(data.len()).unwrap()` — a panic
(`none`) when any update's byte vector is empty — and exactly one command
buffer is submitted. -/
def submit_chunk_updates {B : Type} (st : RendererState B) :
    Option (RendererState B) :=
  let updates := st.chunk_update_queue
  let st := { st with chunk_update_queue := ([] : List (B × List Nat)) }
  if updates.length = 0 then
    some st
  else if updates.any (fun u => u.2.length = 0) then
    none
  else
    some { st with staged_writes := st.staged_writes ++ updates,
                   submissions := st.submissions + 1 }

/-- **C10.**  Whenever `submit_chunk_updates` returns, the pending queue
has been fully drained (`chunk_update_queue = []` in the state it
returns); and when the queue is already empty it returns early with the
state completely unchanged — no command encoder is created and nothing is
submitted. -/
theorem c10_submit_chunk_updates_drains_queue {B : Type}
    (st st' : RendererState B)
    (h : submit_chunk_updates st = some st') :
    st'.chunk_update_queue = [] ∧
    (st.chunk_update_queue = [] → submit_chunk_updates st = some st) := by
  constructor
  · unfold submit_chunk_updates at h
    dsimp only at h
    split at h
    · cases h; rfl
    · split at h
      · cases h
      · cases h; rfl
  · intro hq
    unfold submit_chunk_updates
    cases st with
    | mk q s n =>
      cases hq
      rfl

/-- Witness for C10: a queue with one pending non-empty write is drained
(and one command buffer submitted); an already-empty queue leaves the state
untouched. -/
theorem c10_witness :
    (RendererState.mk (B := Nat) [] [(7, [1, 2, 3])] 1).chunk_update_queue = [] ∧
    submit_chunk_updates (RendererState.mk (B := Nat) [] [] 5)
      = some (RendererState.mk (B := Nat) [] [] 5) := by
  have h1 := c10_submit_chunk_updates_drains_queue
    (RendererState.mk (B := Nat) [(7, [1, 2, 3])] [] 0)
    (RendererState.mk (B := Nat) [] [(7, [1, 2, 3])] 1) (by decide)
  have h2 := c10_submit_chunk_updates_drains_queue
    (RendererState.mk (B := Nat) [] [] 5)
    (RendererState.mk (B := Nat) [] [] 5) (by decide)
  exact ⟨h1.1, h2.2 rfl⟩

/-! ## Model resolution and mesh baking (block.rs lines 89–399)

`block.rs` builds on the external `minecraft_assets` and `serde_json`
crates.  Their behaviour, where `block.rs` depends on it, is modelled
explicitly below: texture values are strings where a leading `#` marks a
reference to another texture slot; `serde_json::from_str::<Model>` is an
abstract `parse : String → Except String Model` parameter; `ResourcePath`
(declared in `mc/resource.rs`, which is not among the given sources) is a
path string with `prepend`/`append` concatenation. -/

/-- Modelled from the `minecraft_assets` crate: `Texture::reference()` —
the slot name (the remaining characters) when the value starts with `#`,
and `None` otherwise. -/
def textureReference (t : String) : Option String :=
  match t.data with
  | '#' :: rest => some (String.mk rest)
  | _ => none

/-- Modelled from the `minecraft_assets` crate: `Texture::resolve(textures)`
follows `#name` references through the texture map until a non-reference
value is reached; a dangling reference is `None`.  The crate's `while` loop
runs forever on a reference cycle; called with fuel `textures.length + 1`
(enough for every acyclic chain), a cycle exhausts the fuel and is likewise
`None`. -/
def resolveTexture (textures : List (String × String)) :
    Nat → String → Option String
  | 0, _ => none
  | fuel + 1, t =>
    match textureReference t with
    | none => some t
    | some name =>
      match textures.lookup name with
      | none => none
      | some t' => resolveTexture textures fuel t'

/-- `schemas::models::BlockFace`: the six face directions. -/
inductive BlockFaceE where
  | Up | Down | North | East | West | South
deriving DecidableEq, Repr

/-- `schemas::models::ElementFace`, restricted to the fields block.rs
reads: the texture value, the optional face-local UV sub-rectangle
`[x1, y1, x2, y2]` (f32 — exact rationals here) and the tint index. -/
structure ElementFace where
  texture : String
  uv : Option (ℚ × ℚ × ℚ × ℚ)
  tint_index : Int
deriving DecidableEq, Repr

/-- `schemas::models::Element`: a cuboid from `from` to `to` (f32 triples
in 0..16 model space — exact rationals here) with up to six named faces. -/
structure Element where
  efrom : ℚ × ℚ × ℚ
  eto : ℚ × ℚ × ℚ
  faces : List (BlockFaceE × ElementFace)
deriving DecidableEq, Repr

/-- `schemas::Model`, restricted to the fields block.rs reads. -/
structure Model where
  parent : Option String
  textures : Option (List (String × String))
  elements : Option (List Element)
deriving DecidableEq, Repr

/-- The `ResourceProvider` collaborator (its trait lives in
`mc/resource.rs`, not among the given sources): text content and raw bytes
by resource path, `none` when the path has no content. -/
structure ResourceProviderE where
  get_string : String → Option String
  get_bytes : String → Option (List Nat)

/-- `ResourcePath::from(s).prepend("models/").append(".json")` as built in
recurse_model_parents (block.rs 96–98) and `ModelMesh::bake`
(block.rs 220). -/
def modelResourcePath (model : String) : String :=
  "models/" ++ model ++ ".json"

/-- `recurse_model_parents` (block.rs lines 89–113): collect the resource
paths of the parent chain, deepest ancestor first.  A missing parent file
(`.expect`) or malformed parent JSON (`.unwrap`) panics — `none`.  The Rust
recursion is unbounded; `fuel` models that, and running out of fuel (a
parent chain longer than the fuel, e.g. a parent cycle, on which the Rust
recurses forever) is `none`. -/
def recurse_model_parents (parse : String → Except String Model)
    (resource_provider : ResourceProviderE) :
    Nat → Model → List String → Option (List String)
  | 0, _, _ => none
  | fuel + 1, model, models =>
    match model.parent with
    | none => some models
    | some parent_path_string =>
      let parent_path := modelResourcePath parent_path_string
      match resource_provider.get_string parent_path with
      | none => none
      | some s =>
        match parse s with
        | Except.error _ => none
        | Except.ok parent_model =>
          match recurse_model_parents parse resource_provider fuel
              parent_model models with
          | none => none
          | some models' => some (models' ++ [parent_path])

/-- Modelled from the `minecraft_assets` crate: the texture-map union
performed by `ModelResolver::resolve_model` — keys already present (set by
a more derived model) win; new keys are appended. -/
def mergeTextures (acc : List (String × String)) :
    List (String × String) → List (String × String)
  | [] => acc
  | (k, v) :: rest =>
    if (acc.lookup k).isSome then mergeTextures acc rest
    else mergeTextures (acc ++ [(k, v)]) rest

/-- Modelled from the `minecraft_assets` crate: merging one more ancestor
into the partially resolved model — elements from the most derived model
that defines them, textures unioned with derived keys winning. -/
def mergeModel (resolved m : Model) : Model :=
  { parent := none
    textures :=
      match resolved.textures, m.textures with
      | none, t => t
      | some t, none => some t
      | some t1, some t2 => some (mergeTextures t1 t2)
    elements :=
      match resolved.elements with
      | some e => some e
      | none => m.elements }

/-- Modelled from the `minecraft_assets` crate:
`ModelResolver::resolve_model(models)` folds the given models (most derived
first) into one flat model. -/
def ModelResolver_resolve_model (models : List Model) : Model :=
  models.foldl mergeModel { parent := none, textures := none, elements := none }

/-- The texture-substitution pass of `resolve_model` (block.rs lines
135–143): every texture value that is a reference is replaced by its
resolution against `copy` (the snapshot of the merged texture map); the
`.unwrap()` on a failed resolution panics — `none`. -/
def substituteTextures (copy : List (String × String)) :
    List (String × String) → Option (List (String × String))
  | [] => some []
  | (k, t) :: rest =>
    match textureReference t with
    | none => (substituteTextures copy rest).map (fun l => (k, t) :: l)
    | some _ =>
      match resolveTexture copy (copy.length + 1) t with
      | none => none
      | some v => (substituteTextures copy rest).map (fun l => (k, v) :: l)

/-- `resolve_model` (block.rs lines 115–146).  A model without a parent is
returned unchanged (no substitution pass!).  Otherwise the parent chain is
collected and re-fetched (both `.unwrap()`s panic — `none`), merged with
the model itself first, and the merged texture map has its references
substituted in place. -/
def resolve_model (parse : String → Except String Model)
    (resource_provider : ResourceProviderE) (fuel : Nat) (model : Model) :
    Option Model :=
  if model.parent.isNone then some model
  else
    match recurse_model_parents parse resource_provider fuel model [] with
    | none => none
    | some parent_paths =>
      match parent_paths.mapM (fun parent_path =>
          match resource_provider.get_string parent_path with
          | none => none
          | some s =>
            match parse s with
            | Except.error _ => none
            | Except.ok m => some m) with
      | none => none
      | some parents =>
        -- `schema` in the source; inlined here
        match (ModelResolver_resolve_model (model :: parents)).textures with
        | none => some (ModelResolver_resolve_model (model :: parents))
        | some textures =>
          match substituteTextures textures textures with
          | none => none
          | some textures' =>
            some { ModelResolver_resolve_model (model :: parents) with
                   textures := some textures' }

/-- `MeshBakeError` (block.rs lines 194–199).  `serde_json::Error` and the
formatted reference diagnostic are carried as strings. -/
inductive MeshBakeError where
  | UnresolvedTextureReference (message : String) : MeshBakeError
  | UnresolvedResourcePath (path : String) : MeshBakeError
  | JsonError (error : String) : MeshBakeError
deriving DecidableEq, Repr

/-- The texture atlas as block.rs reads it: `uv_map` maps texture resource
paths to UV rectangles (`u16` texel pairs) and `animated_texture_offsets`
to animation-buffer offsets.  `place` models the packing policy of
`Atlas::allocate` (render/atlas.rs is not among the given sources): the UV
rectangle a newly packed texture receives. -/
structure Atlas where
  uv_map : List (String × ((Nat × Nat) × (Nat × Nat)))
  animated_texture_offsets : List (String × Nat)
  place : String → (Nat × Nat) × (Nat × Nat)

/-- Modelled from the spec (§4.2, render/atlas.rs is not among the given
sources): `Atlas::allocate` packs each texture not yet present into the
atlas, assigning it a UV rectangle; already-present paths are skipped
(idempotent per path). -/
def Atlas.allocate (atlas : Atlas) (paths : List String) : Atlas :=
  { atlas with
    uv_map := atlas.uv_map ++
      ((paths.filter (fun p => (atlas.uv_map.lookup p).isNone)).map
        (fun p => (p, atlas.place p))) }

/-- `get_atlas_uv` (block.rs lines 148–187): resolve the face's texture
value — directly when it is not a reference, otherwise through the model's
texture map (`textures.as_ref()?` and a failed `resolve` are `None`) — and
look the resulting path up in the atlas. -/
def get_atlas_uv (face : ElementFace) (block_atlas : Atlas)
    (textures : Option (List (String × String))) :
    Option ((Nat × Nat) × (Nat × Nat)) :=
  let texture_path : Option String :=
    match textureReference face.texture with
    | none => some face.texture
    | some _ =>
      match textures with
      | none => none
      | some ts => resolveTexture ts (ts.length + 1) face.texture
  match texture_path with
  | none => none
  | some p => block_atlas.uv_map.lookup p

/-- A Rust `as u16` cast of an `f32`: truncation toward zero, saturating at
the type's bounds (negative values to 0, values above 65535 to 65535). -/
def f32_as_u16 (q : ℚ) : Nat := min (max 0 ⌊q⌋).toNat 65535

/-- `BlockMeshVertex` (block.rs lines 61–69): position (f32 triple — exact
rationals here), atlas texel coordinates (`u16` pair), normal (f32 triple
whose values are always 0 or ±1 — `Int` here) and the animation offset. -/
structure BlockMeshVertex where
  position : ℚ × ℚ × ℚ
  tex_coords : Nat × Nat
  normal : Int × Int × Int
  animation_uv_offset : Nat
deriving DecidableEq, Repr

/-- `Face` (block.rs lines 71–75). -/
structure FaceB where
  vert_index : Nat
  tint_index : Int
deriving DecidableEq, Repr

/-- `BlockModelFaces` (block.rs lines 77–87): the 24-slot vertex array
(4 vertices per face, order south, west, north, east, up, down), the
optional per-direction `Face` records, and the full-cube flag. -/
structure BlockModelFacesB where
  vertices : List BlockMeshVertex
  north : Option FaceB
  east : Option FaceB
  south : Option FaceB
  west : Option FaceB
  up : Option FaceB
  down : Option FaceB
  cube : Bool
deriving DecidableEq, Repr

/-- `ModelMesh` (block.rs lines 204–208). -/
structure ModelMeshB where
  mesh : List BlockModelFacesB
  is_cube : Bool
deriving DecidableEq, Repr

/-- `ModelProperties` restricted to the field block.rs reads: the model
resource name. -/
structure ModelProperties where
  model : String
deriving DecidableEq, Repr

/-- The `tex_map` closure of `ModelMesh::bake` (block.rs lines 276–295):
atlas UV of the face's texture, shifted by the face-local UV sub-rectangle
(defaulting to the full `[0, 0, 16, 16]` quad; both corners offset from the
atlas rectangle's minimum corner, the `as u16` casts truncating), paired
with the animation offset (0 for static textures) and the tint index. -/
def tex_map (tex : ElementFace) (block_atlas : Atlas)
    (textures : Option (List (String × String))) :
    Option (((Nat × Nat) × (Nat × Nat)) × Nat × Int) :=
  (get_atlas_uv tex block_atlas textures).map (fun uv =>
    let tex_uv := tex.uv.getD (0, 0, 16, 16)
    ((((uv.1.1 + f32_as_u16 tex_uv.1) % 2 ^ 16,
       (uv.1.2 + f32_as_u16 tex_uv.2.1) % 2 ^ 16),
      ((uv.1.1 + f32_as_u16 tex_uv.2.2.1) % 2 ^ 16,
       (uv.1.2 + f32_as_u16 tex_uv.2.2.2) % 2 ^ 16)),
     (block_atlas.animated_texture_offsets.lookup tex.texture).getD 0,
     tex.tint_index))

/-- `NO_UV` (block.rs line 320): the zeroed placeholder for an absent face;
`tint_index = -1` is the "no face" sentinel. -/
def NO_UV : ((Nat × Nat) × (Nat × Nat)) × Nat × Int := (((0, 0), (0, 0)), 0, -1)

/-- The per-element body of `ModelMesh::bake` (block.rs lines 269–388):
the eight corner positions in block-local unit-cube space with the X axis
mirrored (`1 - x/16`), the per-face UV lookups, the fixed 24-vertex layout
and the per-direction `Face` records, plus the element's full-cube flag. -/
def bakeElement (block_atlas : Atlas) (textures : Option (List (String × String)))
    (element : Element) : BlockModelFacesB :=
  let north := (element.faces.lookup BlockFaceE.North).bind
    (fun f => tex_map f block_atlas textures)
  let east := (element.faces.lookup BlockFaceE.East).bind
    (fun f => tex_map f block_atlas textures)
  let south := (element.faces.lookup BlockFaceE.South).bind
    (fun f => tex_map f block_atlas textures)
  let west := (element.faces.lookup BlockFaceE.West).bind
    (fun f => tex_map f block_atlas textures)
  let up := (element.faces.lookup BlockFaceE.Up).bind
    (fun f => tex_map f block_atlas textures)
  let down := (element.faces.lookup BlockFaceE.Down).bind
    (fun f => tex_map f block_atlas textures)
  let a : ℚ × ℚ × ℚ := (1 - element.efrom.1 / 16, element.efrom.2.1 / 16, element.efrom.2.2 / 16)
  let b : ℚ × ℚ × ℚ := (1 - element.eto.1 / 16, element.efrom.2.1 / 16, element.efrom.2.2 / 16)
  let c : ℚ × ℚ × ℚ := (1 - element.eto.1 / 16, element.eto.2.1 / 16, element.efrom.2.2 / 16)
  let d : ℚ × ℚ × ℚ := (1 - element.efrom.1 / 16, element.eto.2.1 / 16, element.efrom.2.2 / 16)
  let e : ℚ × ℚ × ℚ := (1 - element.efrom.1 / 16, element.efrom.2.1 / 16, element.eto.2.2 / 16)
  let f : ℚ × ℚ × ℚ := (1 - element.eto.1 / 16, element.efrom.2.1 / 16, element.eto.2.2 / 16)
  let g : ℚ × ℚ × ℚ := (1 - element.eto.1 / 16, element.eto.2.1 / 16, element.eto.2.2 / 16)
  let h : ℚ × ℚ × ℚ := (1 - element.efrom.1 / 16, element.eto.2.1 / 16, element.eto.2.2 / 16)
  let north_face := north.getD NO_UV
  let east_face := east.getD NO_UV
  let south_face := south.getD NO_UV
  let west_face := west.getD NO_UV
  let up_face := up.getD NO_UV
  let down_face := down.getD NO_UV
  let current_element_is_full_cube :=
    element.efrom.1 = 0 ∧ element.efrom.2.1 = 0 ∧ element.efrom.2.2 = 0 ∧
    element.eto.1 = 16 ∧ element.eto.2.1 = 16 ∧ element.eto.2.2 = 16
  { vertices :=
      [ { position := h, tex_coords := (south_face.1.2.1, south_face.1.1.2),
          normal := (0, 0, 1), animation_uv_offset := south_face.2.1 },
        { position := g, tex_coords := (south_face.1.1.1, south_face.1.1.2),
          normal := (0, 0, 1), animation_uv_offset := south_face.2.1 },
        { position := f, tex_coords := (south_face.1.1.1, south_face.1.2.2),
          normal := (0, 0, 1), animation_uv_offset := south_face.2.1 },
        { position := e, tex_coords := (south_face.1.2.1, south_face.1.2.2),
          normal := (0, 0, 1), animation_uv_offset := south_face.2.1 },
        { position := f, tex_coords := (west_face.1.2.1, west_face.1.2.2),
          normal := (-1, 0, 0), animation_uv_offset := west_face.2.1 },
        { position := g, tex_coords := (west_face.1.2.1, west_face.1.1.2),
          normal := (-1, 0, 0), animation_uv_offset := west_face.2.1 },
        { position := c, tex_coords := (west_face.1.1.1, west_face.1.1.2),
          normal := (-1, 0, 0), animation_uv_offset := west_face.2.1 },
        { position := b, tex_coords := (west_face.1.1.1, west_face.1.2.2),
          normal := (-1, 0, 0), animation_uv_offset := west_face.2.1 },
        { position := a, tex_coords := (north_face.1.1.1, north_face.1.2.2),
          normal := (0, 0, -1), animation_uv_offset := north_face.2.1 },
        { position := b, tex_coords := (north_face.1.2.1, north_face.1.2.2),
          normal := (0, 0, -1), animation_uv_offset := north_face.2.1 },
        { position := c, tex_coords := (north_face.1.2.1, north_face.1.1.2),
          normal := (0, 0, -1), animation_uv_offset := north_face.2.1 },
        { position := d, tex_coords := (north_face.1.1.1, north_face.1.1.2),
          normal := (0, 0, -1), animation_uv_offset := north_face.2.1 },
        { position := h, tex_coords := (east_face.1.1.1, east_face.1.1.2),
          normal := (1, 0, 0), animation_uv_offset := east_face.2.1 },
        { position := e, tex_coords := (east_face.1.1.1, east_face.1.2.2),
          normal := (1, 0, 0), animation_uv_offset := east_face.2.1 },
        { position := a, tex_coords := (east_face.1.2.1, east_face.1.2.2),
          normal := (1, 0, 0), animation_uv_offset := east_face.2.1 },
        { position := d, tex_coords := (east_face.1.2.1, east_face.1.1.2),
          normal := (1, 0, 0), animation_uv_offset := east_face.2.1 },
        { position := d, tex_coords := (up_face.1.1.1, up_face.1.2.2),
          normal := (0, 1, 0), animation_uv_offset := up_face.2.1 },
        { position := c, tex_coords := (up_face.1.2.1, up_face.1.2.2),
          normal := (0, 1, 0), animation_uv_offset := up_face.2.1 },
        { position := g, tex_coords := (up_face.1.2.1, up_face.1.1.2),
          normal := (0, 1, 0), animation_uv_offset := up_face.2.1 },
        { position := h, tex_coords := (up_face.1.1.1, up_face.1.1.2),
          normal := (0, 1, 0), animation_uv_offset := up_face.2.1 },
        { position := e, tex_coords := (down_face.1.2.1, down_face.1.2.2),
          normal := (0, -1, 0), animation_uv_offset := down_face.2.1 },
        { position := f, tex_coords := (down_face.1.1.1, down_face.1.2.2),
          normal := (0, -1, 0), animation_uv_offset := down_face.2.1 },
        { position := b, tex_coords := (down_face.1.1.1, down_face.1.1.2),
          normal := (0, -1, 0), animation_uv_offset := down_face.2.1 },
        { position := a, tex_coords := (down_face.1.2.1, down_face.1.1.2),
          normal := (0, -1, 0), animation_uv_offset := down_face.2.1 } ]
    south := south.map (fun p => { vert_index := 0, tint_index := p.2.2 })
    west := west.map (fun p => { vert_index := 4, tint_index := p.2.2 })
    north := north.map (fun p => { vert_index := 8, tint_index := p.2.2 })
    east := east.map (fun p => { vert_index := 12, tint_index := p.2.2 })
    up := up.map (fun p => { vert_index := 16, tint_index := p.2.2 })
    down := down.map (fun p => { vert_index := 20, tint_index := p.2.2 })
    cube := decide current_element_is_full_cube }

/-- One iteration of `ModelMesh::bake`'s loop over the property variants
(block.rs lines 218–391): fetch and parse the model JSON (the two *typed*
errors: a missing top-level path is `UnresolvedResourcePath`, malformed
top-level JSON is `JsonError`), resolve the parent chain (panics inside
`resolve_model` stay panics — `none`), reject any texture value still
holding a reference (`UnresolvedTextureReference`), fetch the bytes of and
pack every texture missing from the atlas (a missing texture file's
`.unwrap()` panics — `none`), then bake every element.  Returns the baked
elements and the (possibly grown) atlas. -/
def bakeModelProps (parse : String → Except String Model)
    (resource_provider : ResourceProviderE) (block_atlas : Atlas) (fuel : Nat)
    (model_properties : ModelProperties) :
    Option (Except MeshBakeError (List BlockModelFacesB × Atlas)) :=
  let model_resource_path := modelResourcePath model_properties.model
  match resource_provider.get_string model_resource_path with
  | none => some (Except.error (MeshBakeError.UnresolvedResourcePath model_resource_path))
  | some s =>
    match parse s with
    | Except.error e => some (Except.error (MeshBakeError.JsonError e))
    | Except.ok parsed =>
      match resolve_model parse resource_provider fuel parsed with
      | none => none
      | some model =>
        match model.textures with
        | some textures =>
          match textures.find? (fun kv => (textureReference kv.2).isSome) with
          | some kv => some (Except.error (MeshBakeError.UnresolvedTextureReference
              ("key: " ++ kv.1 ++ " value: " ++ kv.2)))
          | none =>
            let unallocated := (textures.map (fun kv => kv.2)).filter
              (fun t => (block_atlas.uv_map.lookup t).isNone)
            match unallocated.mapM (fun p =>
                resource_provider.get_bytes ("textures/" ++ p ++ ".png")) with
            | none => none
            | some _bytes =>
              let block_atlas :=
                if unallocated.isEmpty then block_atlas
                else block_atlas.allocate unallocated
              some (Except.ok
                ((model.elements.getD []).map (bakeElement block_atlas model.textures),
                 block_atlas))
        | none =>
          some (Except.ok
            ((model.elements.getD []).map (bakeElement block_atlas model.textures),
             block_atlas))

/-- The fold of `ModelMesh::bake` over its property variants, threading the
atlas and concatenating the baked elements (`flatten_ok`); the first error
aborts the fold. -/
def bakePropsList (parse : String → Except String Model)
    (resource_provider : ResourceProviderE) (fuel : Nat) :
    Atlas → List ModelProperties → List BlockModelFacesB →
    Option (Except MeshBakeError (List BlockModelFacesB))
  | _, [], acc => some (Except.ok acc)
  | block_atlas, props :: rest, acc =>
    match bakeModelProps parse resource_provider block_atlas fuel props with
    | none => none
    | some (Except.error e) => some (Except.error e)
    | some (Except.ok (faces, block_atlas')) =>
      bakePropsList parse resource_provider fuel block_atlas' rest (acc ++ faces)

/-- `ModelMesh::bake` (block.rs lines 211–399).  `is_cube` is the logical
AND of the full-cube flag over all baked elements
(`all_elements_are_full_cubes`). -/
def ModelMesh_bake (parse : String → Except String Model)
    (resource_provider : ResourceProviderE) (block_atlas : Atlas) (fuel : Nat)
    (model_properties : List ModelProperties) :
    Option (Except MeshBakeError ModelMeshB) :=
  match bakePropsList parse resource_provider fuel block_atlas model_properties [] with
  | none => none
  | some (Except.error e) => some (Except.error e)
  | some (Except.ok mesh) =>
    some (Except.ok { mesh := mesh, is_cube := mesh.all (fun fcs => fcs.cube) })

/-- Helper: a successful `Texture::resolve` never returns a reference. -/
theorem resolveTexture_no_reference (textures : List (String × String)) :
    ∀ (fuel : Nat) (t v : String), resolveTexture textures fuel t = some v →
      textureReference v = none := by
  intro fuel
  induction fuel with
  | zero => intro t v h; cases h
  | succ fuel ih =>
    intro t v h
    unfold resolveTexture at h
    cases hr : textureReference t with
    | none =>
      rw [hr] at h
      dsimp only at h
      injection h with h'
      rw [← h']
      exact hr
    | some name =>
      rw [hr] at h
      dsimp only at h
      cases hl : textures.lookup name with
      | none => rw [hl] at h; dsimp only at h; cases h
      | some t' => rw [hl] at h; dsimp only at h; exact ih t' v h

/-- Helper: after the substitution pass of `resolve_model`, no texture
value still holds a reference. -/
theorem substituteTextures_no_reference (copy : List (String × String)) :
    ∀ (ts ts' : List (String × String)),
      substituteTextures copy ts = some ts' →
      ts'.all (fun kv => (textureReference kv.2).isNone) = true := by
  intro ts
  induction ts with
  | nil => intro ts' h; cases h; rfl
  | cons kv rest ih =>
    intro ts' h
    obtain ⟨k, t⟩ := kv
    unfold substituteTextures at h
    cases hr : textureReference t with
    | none =>
      rw [hr] at h
      cases hrest : substituteTextures copy rest with
      | none => rw [hrest] at h; cases h
      | some l =>
        rw [hrest] at h
        cases h
        simp only [List.all_cons, ih l hrest, Bool.and_true]
        simp [hr]
    | some name =>
      rw [hr] at h
      cases hres : resolveTexture copy (copy.length + 1) t with
      | none => rw [hres] at h; cases h
      | some v =>
        rw [hres] at h
        cases hrest : substituteTextures copy rest with
        | none => rw [hrest] at h; cases h
        | some l =>
          rw [hrest] at h
          cases h
          simp only [List.all_cons, ih l hrest, Bool.and_true]
          simp [resolveTexture_no_reference copy _ t v hres]

/-! ### Concrete model chains for C5 and C7 -/

/-- Model "a": parent "b", no textures of its own. -/
def modelA : Model := { parent := some "b", textures := none, elements := none }

/-- Model "b": parent "c"; leaves its "side" texture as a reference `#all`
into the parent's definitions. -/
def modelB : Model :=
  { parent := some "c", textures := some [("side", "#all")], elements := none }

/-- Model "c": no parent; defines the referenced key "all" concretely. -/
def modelC : Model :=
  { parent := none, textures := some [("all", "block/stone")], elements := none }

/-- A variant of model "c" that never defines the referenced key "all". -/
def modelCbad : Model := { parent := none, textures := none, elements := none }

/-- `serde_json::from_str::<Model>` over the three-model corpus of the good
chain A → B → C. -/
def parseC5 : String → Except String Model := fun s =>
  if s = "A" then Except.ok modelA
  else if s = "B" then Except.ok modelB
  else if s = "C" then Except.ok modelC
  else Except.error "expected value at line 1 column 1"

/-- The same corpus with the dangling variant of "c". -/
def parseC5bad : String → Except String Model := fun s =>
  if s = "A" then Except.ok modelA
  else if s = "B" then Except.ok modelB
  else if s = "C" then Except.ok modelCbad
  else Except.error "expected value at line 1 column 1"

/-- A resource provider serving the three model files, plus one file of
malformed JSON. -/
def rpC5 : ResourceProviderE :=
  { get_string := fun p =>
      if p = "models/a.json" then some "A"
      else if p = "models/b.json" then some "B"
      else if p = "models/c.json" then some "C"
      else if p = "models/bad.json" then some "garbage"
      else none
    get_bytes := fun _ => none }

/-- A resource provider with the parent file "models/b.json" missing. -/
def rpC7 : ResourceProviderE :=
  { get_string := fun p => if p = "models/a.json" then some "A" else none
    get_bytes := fun _ => none }

/-- An empty texture atlas. -/
def atlasEmpty : Atlas :=
  { uv_map := [], animated_texture_offsets := [], place := fun _ => ((0, 0), (0, 0)) }

/-- **C5 (amended).**  (a) Whenever `resolve_model` succeeds on a model
that has a parent, every texture value of the result is fully substituted —
no residual reference remains.  (b) Concretely, for the chain A → B → C in
which B leaves "side" as the reference `#all` and C defines
`all = "block/stone"`, resolution substitutes `side = "block/stone"`.
(c) But when C never defines the referenced key, `resolve_model` panics on
the `.unwrap()` of the failed resolution (block.rs line 140) — it does
*not* return an `UnresolvedTextureReference` error, contrary to the claim
(that error is only produced by `ModelMesh::bake`'s check, which for a
parented model is unreachable because `resolve_model` already substituted
or panicked). -/
theorem c5_parent_chain_texture_substitution
    (parse : String → Except String Model) (resource_provider : ResourceProviderE)
    (fuel : Nat) (model : Model) (p : String) (res : Model)
    (hp : model.parent = some p)
    (hres : resolve_model parse resource_provider fuel model = some res) :
    (res.textures.getD []).all (fun kv => (textureReference kv.2).isNone) = true ∧
    (resolve_model parseC5 rpC5 8 modelA).map
        (fun m => (m.textures.getD []).lookup "side") = some (some "block/stone") ∧
    resolve_model parseC5bad rpC5 8 modelA = none := by
  refine ⟨?_, by decide, by decide⟩
  unfold resolve_model at hres
  rw [hp] at hres
  simp only [Option.isNone_some, Bool.false_eq_true, if_false] at hres
  cases h1 : recurse_model_parents parse resource_provider fuel model [] with
  | none => rw [h1] at hres; cases hres
  | some parent_paths =>
    rw [h1] at hres
    dsimp only at hres
    cases h2 : parent_paths.mapM (fun parent_path =>
        match resource_provider.get_string parent_path with
        | none => none
        | some s =>
          match parse s with
          | Except.error _ => none
          | Except.ok m => some m) with
    | none => rw [h2] at hres; cases hres
    | some parents =>
      rw [h2] at hres
      dsimp only at hres
      cases h3 : (ModelResolver_resolve_model (model :: parents)).textures with
      | none =>
        rw [h3] at hres
        injection hres with h4
        rw [← h4, h3]
        rfl
      | some textures =>
        rw [h3] at hres
        dsimp only at hres
        cases h5 : substituteTextures textures textures with
        | none => rw [h5] at hres; cases hres
        | some textures' =>
          rw [h5] at hres
          injection hres with h4
          rw [← h4]
          exact substituteTextures_no_reference textures textures textures' h5

/-- Witness for C5: the good chain A → B → C resolved concretely. -/
theorem c5_witness :
    ((Model.mk none (some [("all", "block/stone"), ("side", "block/stone")])
        none).textures.getD []).all
      (fun kv => (textureReference kv.2).isNone) = true ∧
    (resolve_model parseC5 rpC5 8 modelA).map
        (fun m => (m.textures.getD []).lookup "side") = some (some "block/stone") ∧
    resolve_model parseC5bad rpC5 8 modelA = none :=
  c5_parent_chain_texture_substitution parseC5 rpC5 8 modelA "b"
    (Model.mk none (some [("all", "block/stone"), ("side", "block/stone")]) none)
    rfl (by decide)

/-- **C5 (counterexample).**  The claim says that when C never defines the
referenced key, "resolution fails by returning an UnresolvedTextureReference
error".  It does not: baking model "a" over the chain A → B → C with C not
defining `all` panics — `resolve_model`'s `.unwrap()` on the failed
`Texture::resolve` (block.rs line 140) — so `ModelMesh::bake` returns no
`MeshBakeError` at all (`none` here models the panic). -/
theorem c5_counterexample_dangling_reference_panics :
    ModelMesh_bake parseC5bad rpC5 atlasEmpty 8 [⟨"a"⟩] = none := by rfl

/-- **C7 (amended).**  For the *top-level* model: a missing resource path
is returned as the typed `UnresolvedResourcePath` error, and malformed
model JSON as the typed `JsonError`.  But for a model in the *parent
chain*, a missing resource file is NOT surfaced as
`UnresolvedResourcePath`: `recurse_model_parents` calls
`.expect(...)` on it (block.rs line 103), a panic (`none`), contrary to the
claim. -/
theorem c7_bake_error_propagation
    (parse : String → Except String Model) (resource_provider : ResourceProviderE)
    (block_atlas : Atlas) (fuel : Nat) (props : ModelProperties) :
    (resource_provider.get_string (modelResourcePath props.model) = none →
      ModelMesh_bake parse resource_provider block_atlas fuel [props]
        = some (Except.error
            (MeshBakeError.UnresolvedResourcePath (modelResourcePath props.model)))) ∧
    (∀ s e, resource_provider.get_string (modelResourcePath props.model) = some s →
      parse s = Except.error e →
      ModelMesh_bake parse resource_provider block_atlas fuel [props]
        = some (Except.error (MeshBakeError.JsonError e))) ∧
    (∀ s m pp, resource_provider.get_string (modelResourcePath props.model) = some s →
      parse s = Except.ok m → m.parent = some pp →
      resource_provider.get_string (modelResourcePath pp) = none →
      ModelMesh_bake parse resource_provider block_atlas fuel [props] = none) := by
  refine ⟨?_, ?_, ?_⟩
  · intro h
    unfold ModelMesh_bake bakePropsList bakeModelProps
    dsimp only
    rw [h]
  · intro s e h1 h2
    unfold ModelMesh_bake bakePropsList bakeModelProps
    dsimp only
    rw [h1]
    dsimp only
    rw [h2]
  · intro s m pp h1 h2 h3 h4
    unfold ModelMesh_bake bakePropsList bakeModelProps
    dsimp only
    rw [h1]
    dsimp only
    rw [h2]
    dsimp only
    have hres : resolve_model parse resource_provider fuel m = none := by
      unfold resolve_model
      rw [h3]
      dsimp only
      cases fuel with
      | zero => rfl
      | succ fuel' =>
        unfold recurse_model_parents
        rw [h3]
        dsimp only
        rw [h4]
        exact rfl
    rw [hres]

/-- Witness for C7: each of the three cases at a concrete input — a missing
top-level model, a malformed top-level model, and a missing parent model
(the last one panicking instead of producing a typed error). -/
theorem c7_witness :
    ModelMesh_bake parseC5 rpC7 atlasEmpty 8 [⟨"missing"⟩]
      = some (Except.error
          (MeshBakeError.UnresolvedResourcePath "models/missing.json")) ∧
    ModelMesh_bake parseC5 rpC5 atlasEmpty 8 [⟨"bad"⟩]
      = some (Except.error
          (MeshBakeError.JsonError "expected value at line 1 column 1")) ∧
    ModelMesh_bake parseC5 rpC7 atlasEmpty 8 [⟨"a"⟩] = none := by
  refine ⟨?_, ?_, ?_⟩
  · exact (c7_bake_error_propagation parseC5 rpC7 atlasEmpty 8 ⟨"missing"⟩).1 rfl
  · exact (c7_bake_error_propagation parseC5 rpC5 atlasEmpty 8 ⟨"bad"⟩).2.1
      "garbage" "expected value at line 1 column 1" rfl rfl
  · exact (c7_bake_error_propagation parseC5 rpC7 atlasEmpty 8 ⟨"a"⟩).2.2
      "A" modelA "b" rfl rfl rfl rfl

/-- **C7 (counterexample).**  A missing resource file in the parent chain
("models/b.json" absent while "models/a.json" declares `parent: "b"`) makes
`ModelMesh::bake` panic in `recurse_model_parents` (`none`), not fail with
the typed `UnresolvedResourcePath` error the claim asserts. -/
theorem c7_counterexample_missing_parent_panics :
    ModelMesh_bake parseC5 rpC7 atlasEmpty 8 [⟨"a"⟩] = none := by rfl

end WgpuMc
